import Mathlib

/-!
# Stock decrement transaction: `api/updateStock.js` and `src/App.jsx`

A shallow embedding of the two entry points of the repository:

* `UpdateStock.handler`  : the server handler of `api/updateStock.js`;
* `StockScanner.subtractStock`, `StockScanner.useEffect`, `StockScanner.render` :
  the client component of `src/App.jsx`.

Modelling conventions.

* The Inventory Store is the environment.  An invocation makes at most two remote calls,
  one after the other, so the environment is given by the answer to the query call
  (`QueryResponse`) and the answer to the update call (`UpdateResponse`); the second one
  is consulted only when the update call is really issued.  Every entry point returns,
  next to its outcome, the list of remote calls it issued, in order.
* `new Date().toISOString()` is the parameter `now`.
* The environment variables (token, database id) are the parameter `cfg`.
* JavaScript numbers are IEEE 754 binary64 values (`F64`): a finite value is the rational
  it denotes, and `-`, `+`, `*` round the exact result to the nearest binary64 value, ties
  to even (`F64.ofRat`), overflowing to an infinity.  The two zeros are not told apart:
  they are equal for `===`, `<=`, truthiness and `JSON.stringify`.
* A number received from the store is a finite binary64 value (`Double`: sign, 53-bit
  significand, exponent), the store's number properties being finite JSON numbers.
* `throw new Error(m)` inside `try` is `Except.error m`; the `catch` block is the match on
  the `Except` value.
-/

namespace Nevera

/-! ## Binary64 arithmetic -/

/-- Rounding of a rational to the nearest integer, ties to the even one. -/
def roundHalfEven (y : ℚ) : ℤ :=
  let f := ⌊y⌋
  let d := y - f
  if d < 1 / 2 then f
  else if 1 / 2 < d then f + 1
  else if f % 2 = 0 then f else f + 1

/-- The binary exponent `e` of the binade of `x`: `2 ^ e ≤ |x| < 2 ^ (e + 1)`, and the
least normal exponent `-1022` for smaller (subnormal) magnitudes. -/
def binadeExp (x : ℚ) : ℤ := max (Int.log 2 |x|) (-1022)

/-- The spacing of the binary64 values in the binade of `x` (53-bit significands). -/
def ulp (x : ℚ) : ℚ := (2 : ℚ) ^ (binadeExp x - 52)

/-- Rounding to the nearest multiple of the spacing, ties to even, on an unbounded
exponent range. -/
def roundQ (x : ℚ) : ℚ := (roundHalfEven (x / ulp x) : ℚ) * ulp x

/-- A JavaScript number: NaN, an infinity, or a finite value given by the rational it
denotes. -/
inductive F64 where
  | nan
  | posInf
  | negInf
  | finite (q : ℚ)
  deriving DecidableEq

/-- The binary64 value of an exact result: rounded to nearest, ties to even, and an
infinity when the rounded magnitude reaches `2 ^ 1024`. -/
def F64.ofRat (x : ℚ) : F64 :=
  if (2 : ℚ) ^ 1024 ≤ |roundQ x| then
    (if 0 < roundQ x then F64.posInf else F64.negInf)
  else F64.finite (roundQ x)

/-- The JavaScript `a + b` on numbers. -/
def F64.add : F64 → F64 → F64
  | F64.nan, _ => F64.nan
  | _, F64.nan => F64.nan
  | F64.posInf, F64.negInf => F64.nan
  | F64.negInf, F64.posInf => F64.nan
  | F64.posInf, _ => F64.posInf
  | _, F64.posInf => F64.posInf
  | F64.negInf, _ => F64.negInf
  | _, F64.negInf => F64.negInf
  | F64.finite a, F64.finite b => F64.ofRat (a + b)

/-- The JavaScript `a - b` on numbers. -/
def F64.sub : F64 → F64 → F64
  | F64.nan, _ => F64.nan
  | _, F64.nan => F64.nan
  | F64.posInf, F64.posInf => F64.nan
  | F64.negInf, F64.negInf => F64.nan
  | F64.posInf, _ => F64.posInf
  | _, F64.posInf => F64.negInf
  | F64.negInf, _ => F64.negInf
  | _, F64.negInf => F64.posInf
  | F64.finite a, F64.finite b => F64.ofRat (a - b)

/-- An infinity times a finite factor whose sign, relative to the infinity, is that
of `x`: NaN for a zero factor. -/
def F64.infTimes (x : ℚ) : F64 :=
  if x = 0 then F64.nan else if 0 < x then F64.posInf else F64.negInf

/-- The JavaScript `a * b` on numbers. -/
def F64.mul : F64 → F64 → F64
  | F64.nan, _ => F64.nan
  | _, F64.nan => F64.nan
  | F64.finite a, F64.finite b => F64.ofRat (a * b)
  | F64.finite a, F64.posInf => F64.infTimes a
  | F64.finite a, F64.negInf => F64.infTimes (-a)
  | F64.posInf, F64.finite b => F64.infTimes b
  | F64.negInf, F64.finite b => F64.infTimes (-b)
  | F64.posInf, F64.posInf => F64.posInf
  | F64.negInf, F64.negInf => F64.posInf
  | F64.posInf, F64.negInf => F64.negInf
  | F64.negInf, F64.posInf => F64.negInf

/-- The JavaScript `a <= b` on numbers: false as soon as one side is NaN. -/
def F64.le : F64 → F64 → Bool
  | F64.nan, _ => false
  | _, F64.nan => false
  | F64.negInf, _ => true
  | _, F64.posInf => true
  | F64.posInf, _ => false
  | _, F64.negInf => false
  | F64.finite a, F64.finite b => decide (a ≤ b)

/-- The JavaScript `Math.max(a, b)` on numbers: NaN as soon as one argument is NaN. -/
def F64.max (a b : F64) : F64 :=
  match a, b with
  | F64.nan, _ => F64.nan
  | _, F64.nan => F64.nan
  | a, b => if F64.le a b then b else a

/-- A finite binary64 value by its encoding: a sign, a significand below `2 ^ 53` and an
exponent field; it denotes `± mant * 2 ^ (expo - 1074)`, the exponents running from
`-1074` to `971`. -/
structure Double where
  negative : Bool
  mant : ℕ
  expo : ℕ
  mant_lt : mant < 2 ^ 53
  expo_lt : expo < 2046
  deriving DecidableEq

/-- The rational denoted by a finite binary64 value. -/
def Double.toRat (d : Double) : ℚ :=
  (if d.negative then -1 else 1) * (d.mant : ℚ) * (2 : ℚ) ^ ((d.expo : ℤ) - 1074)

/-- The binary64 value of a natural number below `2 ^ 53`. -/
def Double.ofNat (n : ℕ) (h : n < 2 ^ 53) : Double :=
  { negative := false, mant := n, expo := 1074, mant_lt := h, expo_lt := by decide }

/-! ## Data received from the store -/

/-- A Notion number property `{ number: <number or null> }`; `none` is `null`. -/
structure NumberProperty where
  number : Option Double
  deriving DecidableEq

/-- The `properties` object of a page, restricted to the four properties the code reads.
`none` means that the property is absent from the object. -/
structure PageProperties where
  Quantity : Option NumberProperty
  Price : Option NumberProperty
  TotalConsumed : Option NumberProperty
  ConsumedThisMonth : Option NumberProperty
  deriving DecidableEq

/-- One element of `queryData.results`. -/
structure Page where
  id : String
  properties : PageProperties
  deriving DecidableEq

/-- The JavaScript value of an expression `page.properties.X?.number`. -/
inductive JsValue where
  | undefined
  | null
  | number (n : F64)
  deriving DecidableEq

/-- Optional chaining `X?.number`: `undefined` when `X` is absent, else the field. -/
def optNumber : Option NumberProperty → JsValue
  | none => JsValue.undefined
  | some ⟨none⟩ => JsValue.null
  | some ⟨some d⟩ => JsValue.number (F64.finite d.toRat)

/-- JavaScript truthiness of the values above: `undefined`, `null`, `0` and NaN are
falsy. -/
def JsValue.truthy : JsValue → Bool
  | JsValue.number F64.nan => false
  | JsValue.number (F64.finite q) => decide (q ≠ 0)
  | JsValue.number _ => true
  | _ => false

/-- The expression `v || 0`, whose result is always a number here. -/
def JsValue.orZero (v : JsValue) : F64 :=
  match v with
  | JsValue.number n => if v.truthy then n else F64.finite 0
  | _ => F64.finite 0

/-! ## Remote calls -/

/-- Environment configuration: the bearer token and the database id. -/
structure Config where
  token : String
  databaseId : String
  deriving DecidableEq

/-- A value of the `properties` object given to `JSON.stringify` for the PATCH body. -/
inductive PropertyValue where
  | number (n : F64)
  | date (start : String)
  deriving DecidableEq

/-- The JSON body of a remote call: the query filter
`{filter: {property, title: {equals}}}` or the update `{properties: {...}}`,
the latter as the list of its keys and values in source order. -/
inductive RequestBody where
  | filter (property : String) (titleEquals : String)
  | properties (props : List (String × PropertyValue))
  deriving DecidableEq

/-- One `fetch` call. -/
structure RemoteCall where
  method : String
  url : String
  headers : List (String × String)
  body : RequestBody
  deriving DecidableEq

/-- What the awaited query call gives:
* `failed m`: `fetch` or `response.json()` rejects, or `queryData.results` cannot be read;
  an error with message `m` is thrown;
* `notOk t`: a response with `ok = false` whose body text is `t`;
* `ok results`: a response with `ok = true` whose body is `{results: [...]}`. -/
inductive QueryResponse where
  | failed (message : String)
  | notOk (text : String)
  | ok (results : List Page)
  deriving DecidableEq

/-- What the awaited update call gives: `failed m` when `fetch` rejects with message `m`,
`notOk t` for a response with `ok = false` and body text `t`, `ok` otherwise. -/
inductive UpdateResponse where
  | failed (message : String)
  | notOk (text : String)
  | ok
  deriving DecidableEq

/-- A message contains a text when the text occurs in it as a contiguous substring. -/
def containsText (msg t : String) : Prop := t.data <:+: msg.data

instance (msg t : String) : Decidable (containsText msg t) := by
  unfold containsText; infer_instance

/-- The PATCH calls of a trace, each as its target URL and its `properties` list. -/
def writes : List RemoteCall → List (String × List (String × PropertyValue))
  | [] => []
  | c :: cs =>
    match c.method, c.body with
    | "PATCH", RequestBody.properties props => (c.url, props) :: writes cs
    | _, _ => writes cs

/-- The number stored under a key of a `properties` list, if any. -/
def lookupNumber (key : String) : List (String × PropertyValue) → Option F64
  | [] => none
  | (k, v) :: rest =>
    if k = key then
      match v with
      | PropertyValue.number n => some n
      | PropertyValue.date _ => none
    else lookupNumber key rest

/-! ## Server entry point: `api/updateStock.js` -/

namespace UpdateStock

/-- The object passed to `res.status(200).json(...)`, its numbers as JavaScript values
(before serialisation). -/
structure TransactionResult where
  product : String
  oldQty : F64
  newQty : F64
  totalConsumed : F64
  monthlyConsumed : F64
  price : F64
  value : F64
  deriving DecidableEq

/-- The JSON body of the HTTP response. -/
inductive JsonBody where
  | error (message : String)
  | result (r : TransactionResult)
  deriving DecidableEq

/-- What `res.status(s).json(b)` sends. -/
structure HttpResponse where
  status : Nat
  body : JsonBody
  deriving DecidableEq

/-- The query `fetch` of lines 9-22. -/
def queryCall (cfg : Config) (product : String) : RemoteCall :=
  { method := "POST"
    url := "https://api.notion.com/v1/databases/" ++ cfg.databaseId ++ "/query"
    headers := [("Authorization", "Bearer " ++ cfg.token),
                ("Notion-Version", "2022-06-28"),
                ("Content-Type", "application/json")]
    body := RequestBody.filter "Name" product }

/-- The update `fetch` of lines 47-62. -/
def updateCall (cfg : Config) (now : String) (pageId : String)
    (newQty newTotalConsumed newMonthlyConsumed : F64) : RemoteCall :=
  { method := "PATCH"
    url := "https://api.notion.com/v1/pages/" ++ pageId
    headers := [("Authorization", "Bearer " ++ cfg.token),
                ("Notion-Version", "2022-06-28"),
                ("Content-Type", "application/json")]
    body := RequestBody.properties
      [("Quantity", PropertyValue.number newQty),
       ("Total Consumed", PropertyValue.number newTotalConsumed),
       ("Consumed This Month", PropertyValue.number newMonthlyConsumed),
       ("Last Consumed", PropertyValue.date now)] }

/-- The body of the `try` block (lines 9-77): the response sent, or the message of the
error thrown, together with the remote calls issued.  The `console.log` of line 34 is
not a remote call and is left out. -/
def handlerTry (cfg : Config) (now : String) (product : String)
    (qr : QueryResponse) (ur : UpdateResponse) :
    Except String HttpResponse × List RemoteCall :=
  let q := queryCall cfg product
  match qr with
  | QueryResponse.failed m => (Except.error m, [q])
  | QueryResponse.notOk errorText =>
    (Except.error ("Notion query failed: " ++ errorText), [q])
  | QueryResponse.ok results =>
    match results with
    | [] =>
      (Except.ok ⟨404, JsonBody.error ("Product '" ++ product ++ "' not found in database")⟩,
        [q])
    | page :: _ =>
      let pageId := page.id
      let currentQty := (optNumber page.properties.Quantity).orZero
      let price := (optNumber page.properties.Price).orZero
      let totalConsumed := (optNumber page.properties.TotalConsumed).orZero
      let monthlyConsumed := (optNumber page.properties.ConsumedThisMonth).orZero
      let newQty := F64.max (F64.finite 0) (F64.sub currentQty (F64.finite 1))
      let newTotalConsumed := F64.add totalConsumed (F64.finite 1)
      let newMonthlyConsumed := F64.add monthlyConsumed (F64.finite 1)
      let u := updateCall cfg now pageId newQty newTotalConsumed newMonthlyConsumed
      match ur with
      | UpdateResponse.failed m => (Except.error m, [q, u])
      | UpdateResponse.notOk errorText =>
        (Except.error ("Notion update failed: " ++ errorText), [q, u])
      | UpdateResponse.ok =>
        (Except.ok ⟨200, JsonBody.result
          { product := product
            oldQty := currentQty
            newQty := newQty
            totalConsumed := newTotalConsumed
            monthlyConsumed := newMonthlyConsumed
            price := price
            value := F64.mul newQty price }⟩, [q, u])

/-- The handler: `product` is `req.query.product` (`none` when the parameter is missing).
Returns the HTTP response and the remote calls issued, in order. -/
def handler (cfg : Config) (now : String) (product : Option String)
    (qr : QueryResponse) (ur : UpdateResponse) : HttpResponse × List RemoteCall :=
  match product with
  | none => (⟨400, JsonBody.error "Missing 'product' parameter"⟩, [])
  | some product =>
    if product = "" then (⟨400, JsonBody.error "Missing 'product' parameter"⟩, [])
    else
      match handlerTry cfg now product qr ur with
      | (Except.ok res, calls) => (res, calls)
      | (Except.error message, calls) => (⟨500, JsonBody.error message⟩, calls)

end UpdateStock

/-! ## Client entry point: `src/App.jsx` -/

namespace StockScanner

/-- The values of the `status` state variable. -/
inductive Status where
  | loading
  | success
  | lowStock
  | error
  deriving DecidableEq

/-- The object passed to `setProduct`. -/
structure Product where
  name : String
  oldQty : F64
  newQty : F64
  price : F64
  value : F64
  totalConsumed : F64
  monthlyConsumed : F64
  deriving DecidableEq

/-- The four `useState` variables of the component. -/
structure State where
  status : Status
  product : Option Product
  error : String
  isProcessing : Bool
  deriving DecidableEq

/-- The initial values given to `useState` (lines 10-13). -/
def initialState : State :=
  { status := Status.loading, product := none, error := "", isProcessing := false }

/-- The query `fetch` of lines 32-47. -/
def queryCall (cfg : Config) (productName : String) : RemoteCall :=
  { method := "POST"
    url := "https://api.notion.com/v1/databases/" ++ cfg.databaseId ++ "/query"
    headers := [("Authorization", "Bearer " ++ cfg.token),
                ("Content-Type", "application/json"),
                ("Notion-Version", "2022-06-28")]
    body := RequestBody.filter "Name" productName }

/-- The update `fetch` of lines 71-96. -/
def updateCall (cfg : Config) (currentTimestamp : String) (pageId : String)
    (newQty newTotalConsumed newMonthlyConsumed : F64) : RemoteCall :=
  { method := "PATCH"
    url := "https://api.notion.com/v1/pages/" ++ pageId
    headers := [("Authorization", "Bearer " ++ cfg.token),
                ("Content-Type", "application/json"),
                ("Notion-Version", "2022-06-28")]
    body := RequestBody.properties
      [("Quantity", PropertyValue.number newQty),
       ("Total Consumed", PropertyValue.number newTotalConsumed),
       ("Consumed This Month", PropertyValue.number newMonthlyConsumed),
       ("Last Consumed", PropertyValue.date currentTimestamp)] }

/-- The body of the `try` block of `subtractStock` (lines 32-116), started in state `s`:
the state after `setProduct` and `setStatus`, or the message of the error thrown,
together with the remote calls issued. -/
def subtractStockTry (cfg : Config) (now : String) (s : State) (productName : String)
    (qr : QueryResponse) (ur : UpdateResponse) : Except String State × List RemoteCall :=
  let q := queryCall cfg productName
  match qr with
  | QueryResponse.failed m => (Except.error m, [q])
  | QueryResponse.notOk _ => (Except.error "Failed to find product in database", [q])
  | QueryResponse.ok results =>
    match results with
    | [] => (Except.error ("Product \"" ++ productName ++ "\" not found in database"), [q])
    | page :: _ =>
      let currentQty := (optNumber page.properties.Quantity).orZero
      let price := (optNumber page.properties.Price).orZero
      let totalConsumed := (optNumber page.properties.TotalConsumed).orZero
      let monthlyConsumed := (optNumber page.properties.ConsumedThisMonth).orZero
      let pageId := page.id
      let newQty := F64.max (F64.finite 0) (F64.sub currentQty (F64.finite 1))
      let newTotalConsumed := F64.add totalConsumed (F64.finite 1)
      let newMonthlyConsumed := F64.add monthlyConsumed (F64.finite 1)
      let currentTimestamp := now
      let u := updateCall cfg currentTimestamp pageId newQty newTotalConsumed
        newMonthlyConsumed
      match ur with
      | UpdateResponse.failed m => (Except.error m, [q, u])
      | UpdateResponse.notOk _ => (Except.error "Failed to update stock", [q, u])
      | UpdateResponse.ok =>
        let p : Product :=
          { name := productName
            oldQty := currentQty
            newQty := newQty
            price := price
            value := F64.mul newQty price
            totalConsumed := newTotalConsumed
            monthlyConsumed := newMonthlyConsumed }
        let s1 := { s with product := some p }
        let s2 := if F64.le newQty (F64.finite 2) then { s1 with status := Status.lowStock }
                  else { s1 with status := Status.success }
        (Except.ok s2, [q, u])

/-- The function `subtractStock` (lines 28-124) started in state `s`: the state once the
`finally` block has run, and the remote calls issued. -/
def subtractStock (cfg : Config) (now : String) (s : State) (productName : String)
    (qr : QueryResponse) (ur : UpdateResponse) : State × List RemoteCall :=
  let s0 := { s with isProcessing := true }
  match subtractStockTry cfg now s0 productName qr ur with
  | (Except.ok s1, calls) => ({ s1 with isProcessing := false }, calls)
  | (Except.error message, calls) =>
    ({ s0 with status := Status.error, error := message, isProcessing := false }, calls)

/-- The mount effect (lines 15-26) run from the initial state: `productName` is
`urlParams.get('product')` (`none` when the URL has no such parameter). -/
def useEffect (cfg : Config) (now : String) (productName : Option String)
    (qr : QueryResponse) (ur : UpdateResponse) : State × List RemoteCall :=
  match productName with
  | none =>
    ({ initialState with status := Status.error, error := "No product specified in URL" }, [])
  | some productName =>
    if productName = "" then
      ({ initialState with status := Status.error, error := "No product specified in URL" },
        [])
    else subtractStock cfg now initialState productName qr ur

/-- The four blocks of the returned JSX. -/
inductive View where
  | loading
  | success (p : Product)
  | lowStock (p : Product)
  | error (message : String)
  deriving DecidableEq

/-- The blocks that the `return` of the component (lines 126-271) renders in a state:
each block is present when its guard `status === ... && ...` holds. -/
def render (s : State) : List View :=
  (if s.status = Status.loading then [View.loading] else []) ++
  (match s.product with
   | some p => if s.status = Status.success then [View.success p] else []
   | none => []) ++
  (match s.product with
   | some p => if s.status = Status.lowStock then [View.lowStock p] else []
   | none => []) ++
  (if s.status = Status.error then [View.error s.error] else [])

end StockScanner

/-- The record found: page with the given Quantity, Price and counters. -/
def mkPage (id : String) (quantity price total monthly : Option NumberProperty) : Page :=
  { id := id
    properties :=
      { Quantity := quantity, Price := price, TotalConsumed := total,
        ConsumedThisMonth := monthly } }

/-! ## The computed fields of a transaction -/

/-- The quantity read: `page.properties.Quantity?.number || 0`. -/
def currentQtyOf (page : Page) : F64 := (optNumber page.properties.Quantity).orZero

/-- The price read: `page.properties.Price?.number || 0`. -/
def priceOf (page : Page) : F64 := (optNumber page.properties.Price).orZero

/-- The counter read: `page.properties["Total Consumed"]?.number || 0`. -/
def totalConsumedOf (page : Page) : F64 := (optNumber page.properties.TotalConsumed).orZero

/-- The counter read: `page.properties["Consumed This Month"]?.number || 0`. -/
def monthlyConsumedOf (page : Page) : F64 :=
  (optNumber page.properties.ConsumedThisMonth).orZero

/-- The numbers written under a key by the PATCH calls of a trace, one entry per PATCH
call (`none` when that call's body has no number under the key). -/
def writtenNumbers (key : String) (calls : List RemoteCall) : List (Option F64) :=
  (writes calls).map (fun w => lookupNumber key w.2)

/-- The write calls of a trace: the calls whose method is PATCH. -/
def writeCalls (calls : List RemoteCall) : List RemoteCall :=
  calls.filter (fun c => decide (c.method = "PATCH"))

/-- The keys of the `properties` object of a call body (none for a query body). -/
def propertyKeys : RequestBody → List String
  | RequestBody.filter _ _ => []
  | RequestBody.properties props => props.map Prod.fst

/-- What a remote call asks of the store, leaving out the configuration (database id,
token), the header order and the timestamp: for a query its method and filter, for an
update its method, target URL and the three numbers written. -/
inductive CallEssence where
  | query (method : String) (property : String) (titleEquals : String)
  | update (method : String) (target : String)
      (quantity totalConsumed consumedThisMonth : Option F64)
  deriving DecidableEq

/-- The essence of a call. -/
def RemoteCall.essence (c : RemoteCall) : CallEssence :=
  match c.body with
  | RequestBody.filter property titleEquals => CallEssence.query c.method property titleEquals
  | RequestBody.properties props =>
    CallEssence.update c.method c.url (lookupNumber "Quantity" props)
      (lookupNumber "Total Consumed" props) (lookupNumber "Consumed This Month" props)

/-- The new quantity: `Math.max(0, currentQty - 1)`. -/
def newQtyOf (page : Page) : F64 :=
  F64.max (F64.finite 0) (F64.sub (currentQtyOf page) (F64.finite 1))

/-! ## Concrete inputs used to instantiate the theorems -/

/-- A configuration. -/
def cfg0 : Config := { token := "secret", databaseId := "db1" }

/-- A clock reading. -/
def now0 : String := "2024-01-01T00:00:00.000Z"

/-- A number property holding a natural number below `2 ^ 53`. -/
def natProperty (n : ℕ) (h : n < 2 ^ 53) : Option NumberProperty :=
  some ⟨some (Double.ofNat n h)⟩

/-- The record of the first scenario: quantity 3, price 5, counters 10 and 2. -/
def filterA : Page :=
  mkPage "page-a" (natProperty 3 (by decide)) (natProperty 5 (by decide))
    (natProperty 10 (by decide)) (natProperty 2 (by decide))

/-- The record of the second scenario: quantity 10. -/
def filterB : Page :=
  mkPage "page-b" (natProperty 10 (by decide)) (natProperty 4 (by decide))
    (natProperty 7 (by decide)) (natProperty 1 (by decide))

/-- A record whose quantity is already zero, with counters 6 and 4. -/
def emptyShelf : Page :=
  mkPage "page-c" (natProperty 0 (by decide)) (natProperty 5 (by decide))
    (natProperty 6 (by decide)) (natProperty 4 (by decide))

/-- A record with no Quantity, Price or counter property at all. -/
def bareRecord : Page := mkPage "page-d" none none none none

/-- The binary64 value `10 ^ 16 = 5000000000000000 * 2 ^ 1`. -/
def tenQuadrillion : Double :=
  { negative := false, mant := 5000000000000000, expo := 1075,
    mant_lt := by decide, expo_lt := by decide }

/-- A record whose quantity is `10 ^ 16`. -/
def hugeStock : Page :=
  mkPage "page-e" (some ⟨some tenQuadrillion⟩) (natProperty 5 (by decide))
    (natProperty 10 (by decide)) (natProperty 2 (by decide))

/-- The binary64 value `2 ^ 53 = 2 ^ 52 * 2 ^ 1`. -/
def twoPow53 : Double :=
  { negative := false, mant := 4503599627370496, expo := 1075,
    mant_lt := by decide, expo_lt := by decide }

/-- A record with quantity 0 whose Total Consumed counter is `2 ^ 53`. -/
def wornCounter : Page :=
  mkPage "page-f" (natProperty 0 (by decide)) (natProperty 5 (by decide))
    (some ⟨some twoPow53⟩) (natProperty 4 (by decide))

/-- The binary64 value nearest to `0.1`: `3602879701896397 * 2 ^ (-55)`. -/
def oneTenth : Double :=
  { negative := false, mant := 3602879701896397, expo := 1019,
    mant_lt := by decide, expo_lt := by decide }

/-- A record with quantity 4 and price `0.1`. -/
def dimePriced : Page :=
  mkPage "page-g" (natProperty 4 (by decide)) (some ⟨some oneTenth⟩)
    (natProperty 10 (by decide)) (natProperty 2 (by decide))

/-! ## Binary64 rounding lemmas -/

theorem floor_le_roundHalfEven (y : ℚ) : ⌊y⌋ ≤ roundHalfEven y := by
  unfold roundHalfEven
  simp only
  split_ifs <;> omega

theorem roundHalfEven_le_floor_add_one (y : ℚ) : roundHalfEven y ≤ ⌊y⌋ + 1 := by
  unfold roundHalfEven
  simp only
  split_ifs <;> omega

theorem roundHalfEven_intCast (k : ℤ) : roundHalfEven (k : ℚ) = k := by
  unfold roundHalfEven
  simp

theorem roundHalfEven_mono {a b : ℚ} (h : a ≤ b) : roundHalfEven a ≤ roundHalfEven b := by
  have hf : ⌊a⌋ ≤ ⌊b⌋ := Int.floor_mono h
  rcases hf.lt_or_eq with hlt | heq
  · calc roundHalfEven a ≤ ⌊a⌋ + 1 := roundHalfEven_le_floor_add_one a
      _ ≤ ⌊b⌋ := hlt
      _ ≤ roundHalfEven b := floor_le_roundHalfEven b
  · have hd : a - (⌊b⌋ : ℚ) ≤ b - (⌊b⌋ : ℚ) := by linarith
    unfold roundHalfEven
    simp only [heq]
    split_ifs <;> first | omega | (exfalso; linarith)

theorem ulp_pos (x : ℚ) : 0 < ulp x := by
  unfold ulp
  positivity

theorem roundQ_zero : roundQ 0 = 0 := by
  have h : roundHalfEven ((0 : ℤ) : ℚ) = 0 := roundHalfEven_intCast 0
  simp only [Int.cast_zero] at h
  simp [roundQ, h]

theorem roundQ_nonneg {x : ℚ} (hx : 0 ≤ x) : 0 ≤ roundQ x := by
  have h0 : roundHalfEven ((0 : ℤ) : ℚ) = 0 := roundHalfEven_intCast 0
  simp only [Int.cast_zero] at h0
  have h1 : (0 : ℤ) ≤ roundHalfEven (x / ulp x) := by
    rw [← h0]
    exact roundHalfEven_mono (div_nonneg hx (ulp_pos x).le)
  have h2 : (0 : ℚ) ≤ (roundHalfEven (x / ulp x) : ℚ) := by exact_mod_cast h1
  exact mul_nonneg h2 (ulp_pos x).le

theorem roundQ_nonpos {x : ℚ} (hx : x ≤ 0) : roundQ x ≤ 0 := by
  have h0 : roundHalfEven ((0 : ℤ) : ℚ) = 0 := roundHalfEven_intCast 0
  simp only [Int.cast_zero] at h0
  have h1 : roundHalfEven (x / ulp x) ≤ (0 : ℤ) := by
    rw [← h0]
    exact roundHalfEven_mono (div_nonpos_of_nonpos_of_nonneg hx (ulp_pos x).le)
  have h2 : (roundHalfEven (x / ulp x) : ℚ) ≤ 0 := by exact_mod_cast h1
  exact mul_nonpos_of_nonpos_of_nonneg h2 (ulp_pos x).le

theorem binadeExp_ge (x : ℚ) : -1022 ≤ binadeExp x := le_max_right _ _

theorem abs_lt_two_zpow_binadeExp_succ (x : ℚ) : |x| < (2 : ℚ) ^ (binadeExp x + 1) := by
  have h := Int.lt_zpow_succ_log_self (b := 2) (by norm_num) |x|
  have h2 : ((2 : ℕ) : ℚ) ^ (Int.log 2 |x| + 1) ≤ (2 : ℚ) ^ (binadeExp x + 1) := by
    simp only [Nat.cast_ofNat]
    apply zpow_le_zpow_right₀ (by norm_num)
    have := le_max_left (Int.log 2 |x|) (-1022)
    unfold binadeExp
    omega
  exact lt_of_lt_of_le h h2

theorem two_zpow_binadeExp_le {x : ℚ} (hx : x ≠ 0) (h : -1022 < binadeExp x) :
    (2 : ℚ) ^ binadeExp x ≤ |x| := by
  have hlog : binadeExp x = Int.log 2 |x| := by
    unfold binadeExp at h ⊢
    rcases max_cases (Int.log 2 |x|) (-1022) with ⟨h1, _⟩ | ⟨h1, _⟩
    · exact h1
    · rw [h1] at h; exact absurd h (lt_irrefl _)
  rw [hlog]
  have := Int.zpow_log_le_self (b := 2) (by norm_num) (abs_pos.mpr hx)
  simpa using this

theorem binadeExp_eq {x : ℚ} {e : ℤ} (he : -1022 ≤ e) (h1 : (2 : ℚ) ^ e ≤ |x|)
    (h2 : |x| < (2 : ℚ) ^ (e + 1)) : binadeExp x = e := by
  have hpos : 0 < |x| := lt_of_lt_of_le (by positivity) h1
  have ha : e ≤ Int.log 2 |x| := by
    rw [← Int.zpow_le_iff_le_log (by norm_num) hpos]
    simpa using h1
  have hb : Int.log 2 |x| < e + 1 := by
    rw [← Int.lt_zpow_iff_log_lt (by norm_num) hpos]
    simpa using h2
  unfold binadeExp
  rw [max_eq_left (by omega)]
  omega

theorem roundQ_eval {x : ℚ} {e : ℤ} (he : -1022 ≤ e) (h1 : (2 : ℚ) ^ e ≤ |x|)
    (h2 : |x| < (2 : ℚ) ^ (e + 1)) :
    roundQ x = (roundHalfEven (x / (2 : ℚ) ^ (e - 52)) : ℚ) * (2 : ℚ) ^ (e - 52) := by
  unfold roundQ ulp
  rw [binadeExp_eq he h1 h2]

theorem roundQ_mono_pos {x y : ℚ} (hx : 0 < x) (hxy : x ≤ y) : roundQ x ≤ roundQ y := by
  have hy : 0 < y := lt_of_lt_of_le hx hxy
  have hle : binadeExp x ≤ binadeExp y := by
    unfold binadeExp
    apply max_le_max _ le_rfl
    apply Int.log_mono_right (abs_pos.mpr hx.ne')
    rw [abs_of_pos hx, abs_of_pos hy]; exact hxy
  rcases hle.lt_or_eq with hlt | heq
  · have hxu : roundQ x ≤ (2 : ℚ) ^ (binadeExp x + 1) := by
      have h1 : x / ulp x ≤ ((2 ^ 53 : ℤ) : ℚ) := by
        rw [div_le_iff₀ (ulp_pos x)]
        have := abs_lt_two_zpow_binadeExp_succ x
        rw [abs_of_pos hx] at this
        have e1 : ((2 ^ 53 : ℤ) : ℚ) * ulp x = (2 : ℚ) ^ (binadeExp x + 1) := by
          unfold ulp
          have : ((2 ^ 53 : ℤ) : ℚ) = (2 : ℚ) ^ (53 : ℤ) := by norm_num
          rw [this, ← zpow_add₀ (by norm_num)]
          congr 1; ring
        rw [e1]; exact this.le
      have h2 := roundHalfEven_mono h1
      rw [roundHalfEven_intCast] at h2
      have h3 : (roundHalfEven (x / ulp x) : ℚ) ≤ ((2 ^ 53 : ℤ) : ℚ) := by exact_mod_cast h2
      have e1 : ((2 ^ 53 : ℤ) : ℚ) * ulp x = (2 : ℚ) ^ (binadeExp x + 1) := by
        unfold ulp
        have : ((2 ^ 53 : ℤ) : ℚ) = (2 : ℚ) ^ (53 : ℤ) := by norm_num
        rw [this, ← zpow_add₀ (by norm_num)]
        congr 1; ring
      rw [← e1]
      exact mul_le_mul_of_nonneg_right h3 (ulp_pos x).le
    have hyl : (2 : ℚ) ^ binadeExp y ≤ roundQ y := by
      have hb : -1022 < binadeExp y := lt_of_le_of_lt (binadeExp_ge x) hlt
      have h0 := two_zpow_binadeExp_le hy.ne' hb
      rw [abs_of_pos hy] at h0
      have e1 : ((2 ^ 52 : ℤ) : ℚ) * ulp y = (2 : ℚ) ^ binadeExp y := by
        unfold ulp
        have : ((2 ^ 52 : ℤ) : ℚ) = (2 : ℚ) ^ (52 : ℤ) := by norm_num
        rw [this, ← zpow_add₀ (by norm_num)]
        congr 1; ring
      have h1 : ((2 ^ 52 : ℤ) : ℚ) ≤ y / ulp y := by
        rw [le_div_iff₀ (ulp_pos y), e1]; exact h0
      have h2 := roundHalfEven_mono h1
      rw [roundHalfEven_intCast] at h2
      have h3 : ((2 ^ 52 : ℤ) : ℚ) ≤ (roundHalfEven (y / ulp y) : ℚ) := by exact_mod_cast h2
      rw [← e1]
      exact mul_le_mul_of_nonneg_right h3 (ulp_pos y).le
    calc roundQ x ≤ (2 : ℚ) ^ (binadeExp x + 1) := hxu
      _ ≤ (2 : ℚ) ^ binadeExp y := zpow_le_zpow_right₀ (by norm_num) (by omega)
      _ ≤ roundQ y := hyl
  · have hu : ulp x = ulp y := by unfold ulp; rw [heq]
    unfold roundQ
    rw [hu]
    have h1 : x / ulp y ≤ y / ulp y := div_le_div_of_nonneg_right hxy (ulp_pos y).le
    have h2 := roundHalfEven_mono h1
    have h3 : (roundHalfEven (x / ulp y) : ℚ) ≤ (roundHalfEven (y / ulp y) : ℚ) := by
      exact_mod_cast h2
    exact mul_le_mul_of_nonneg_right h3 (ulp_pos y).le

theorem roundQ_mono_nonneg {x y : ℚ} (hx : 0 ≤ x) (hxy : x ≤ y) : roundQ x ≤ roundQ y := by
  rcases hx.lt_or_eq with h | h
  · exact roundQ_mono_pos h hxy
  · rw [← h, roundQ_zero]; exact roundQ_nonneg (h ▸ hxy)

theorem roundQ_int_mul_zpow (m E : ℤ) (hm : |m| < 2 ^ 53) (hE : -1074 ≤ E) :
    roundQ ((m : ℚ) * (2 : ℚ) ^ E) = (m : ℚ) * (2 : ℚ) ^ E := by
  by_cases hm0 : m = 0
  · simp [hm0, roundQ_zero]
  set x : ℚ := (m : ℚ) * (2 : ℚ) ^ E with hx
  have hxne : x ≠ 0 := by
    rw [hx]; exact mul_ne_zero (by exact_mod_cast hm0) (by positivity)
  have habs : |x| < (2 : ℚ) ^ (E + 53) := by
    rw [hx, abs_mul, abs_of_pos (by positivity : (0 : ℚ) < (2 : ℚ) ^ E), zpow_add₀ (by norm_num),
      mul_comm]
    apply mul_lt_mul_of_pos_left _ (by positivity)
    exact_mod_cast hm
  have hlog : Int.log 2 |x| < E + 53 := by
    rw [← Int.lt_zpow_iff_log_lt (by norm_num) (abs_pos.mpr hxne)]
    simpa using habs
  have hbe : binadeExp x ≤ E + 52 := by
    unfold binadeExp
    apply max_le <;> omega
  obtain ⟨n, hn⟩ : ∃ n : ℕ, (n : ℤ) = E + 52 - binadeExp x := ⟨(E + 52 - binadeExp x).toNat, by omega⟩
  have hq : x / ulp x = ((m * 2 ^ n : ℤ) : ℚ) := by
    unfold ulp
    rw [hx, mul_div_assoc, ← zpow_sub₀ (by norm_num)]
    have : E - (binadeExp x - 52) = (n : ℤ) := by omega
    rw [this, zpow_natCast]
    push_cast
    ring
  unfold roundQ
  rw [hq, roundHalfEven_intCast, ← hq]
  exact div_mul_cancel₀ _ (ulp_pos x).ne'

theorem roundQ_intCast (n : ℤ) (hn : |n| ≤ 2 ^ 53) : roundQ (n : ℚ) = n := by
  rcases hn.lt_or_eq with h | h
  · have := roundQ_int_mul_zpow n 0 h (by norm_num)
    simpa using this
  · have hcases : n = 2 ^ 53 ∨ n = -2 ^ 53 := by
      rcases abs_cases n with ⟨h1, _⟩ | ⟨h1, _⟩ <;> [left; right] <;> omega
    rcases hcases with h1 | h1
    · have := roundQ_int_mul_zpow (2 ^ 52) 1 (by norm_num) (by norm_num)
      rw [h1]
      norm_num at this ⊢
      exact this
    · have := roundQ_int_mul_zpow (-2 ^ 52) 1 (by norm_num) (by norm_num)
      rw [h1]
      norm_num at this ⊢
      exact this

theorem Double.toRat_eq (d : Double) :
    d.toRat = (((if d.negative then -1 else 1) * (d.mant : ℤ) : ℤ) : ℚ)
      * (2 : ℚ) ^ ((d.expo : ℤ) - 1074) := by
  unfold Double.toRat
  split_ifs <;> push_cast <;> ring

theorem Double.toRat_ofNat (n : ℕ) (h : n < 2 ^ 53) : (Double.ofNat n h).toRat = n := by
  simp [Double.toRat, Double.ofNat]

theorem roundQ_double (d : Double) : roundQ d.toRat = d.toRat := by
  rw [Double.toRat_eq]
  apply roundQ_int_mul_zpow
  · have := d.mant_lt
    split_ifs
    · rw [show (-1 : ℤ) * (d.mant : ℤ) = -(d.mant : ℤ) by ring, abs_neg, abs_of_nonneg (by positivity)]
      exact_mod_cast this
    · rw [one_mul, abs_of_nonneg (by positivity)]
      exact_mod_cast this
  · omega

theorem Double.abs_toRat_lt (d : Double) : |d.toRat| < (2 : ℚ) ^ 1024 := by
  have hm : (d.mant : ℚ) < 2 ^ 53 := by exact_mod_cast d.mant_lt
  have he : (2 : ℚ) ^ ((d.expo : ℤ) - 1074) ≤ (2 : ℚ) ^ (971 : ℤ) := by
    apply zpow_le_zpow_right₀ (by norm_num)
    have := d.expo_lt
    omega
  have habs : |d.toRat| = (d.mant : ℚ) * (2 : ℚ) ^ ((d.expo : ℤ) - 1074) := by
    unfold Double.toRat
    rw [abs_mul, abs_mul, abs_of_pos (by positivity : (0 : ℚ) < (2 : ℚ) ^ ((d.expo : ℤ) - 1074)),
      abs_of_nonneg (by positivity : (0 : ℚ) ≤ (d.mant : ℚ))]
    split_ifs <;> simp
  rw [habs]
  calc (d.mant : ℚ) * (2 : ℚ) ^ ((d.expo : ℤ) - 1074)
      ≤ (d.mant : ℚ) * (2 : ℚ) ^ (971 : ℤ) := mul_le_mul_of_nonneg_left he (by positivity)
    _ < 2 ^ 53 * (2 : ℚ) ^ (971 : ℤ) := mul_lt_mul_of_pos_right hm (by positivity)
    _ = (2 : ℚ) ^ 1024 := by norm_num

theorem F64.ofRat_of_roundQ {x r : ℚ} (h : roundQ x = r) (hr : |r| < (2 : ℚ) ^ 1024) :
    F64.ofRat x = F64.finite r := by
  unfold F64.ofRat
  rw [h, if_neg (not_le.mpr hr)]

theorem F64.ofRat_double (d : Double) : F64.ofRat d.toRat = F64.finite d.toRat :=
  F64.ofRat_of_roundQ (roundQ_double d) d.abs_toRat_lt

theorem F64.ofRat_intCast (n : ℤ) (hn : |n| ≤ 2 ^ 53) : F64.ofRat (n : ℚ) = F64.finite n := by
  apply F64.ofRat_of_roundQ (roundQ_intCast n hn)
  have h1 : |(n : ℚ)| ≤ 2 ^ 53 := by exact_mod_cast hn
  calc |(n : ℚ)| ≤ 2 ^ 53 := h1
    _ < (2 : ℚ) ^ 1024 := by norm_num

theorem F64.ofRat_zero : F64.ofRat 0 = F64.finite 0 := by
  have := F64.ofRat_intCast 0 (by norm_num)
  simpa using this

/-- The clamped decrement of a representable finite quantity. -/
theorem clamped_decrement (q : ℚ) (hrep : roundQ q = q) (hfin : |q| < (2 : ℚ) ^ 1024) :
    ∃ n : ℚ, F64.max (F64.finite 0) (F64.sub (F64.finite q) (F64.finite 1)) = F64.finite n ∧
      0 ≤ n ∧ (0 ≤ q → n ≤ q) ∧ (q ≤ 1 → n = 0) := by
  have hsub : F64.sub (F64.finite q) (F64.finite 1) = F64.ofRat (q - 1) := rfl
  rw [hsub]
  by_cases h : q - 1 ≤ 0
  · have hr : roundQ (q - 1) ≤ 0 := roundQ_nonpos h
    refine ⟨0, ?_, le_rfl, fun h0 => h0, fun _ => rfl⟩
    unfold F64.ofRat
    split_ifs with h1 h2
    · exact absurd h2 (not_lt.mpr hr)
    · rfl
    · rcases hr.lt_or_eq with h3 | h3
      · simp [F64.max, F64.le, not_le.mpr h3]
      · simp [F64.max, F64.le, h3]
  · push_neg at h
    have hr0 : 0 ≤ roundQ (q - 1) := roundQ_nonneg h.le
    have hrq : roundQ (q - 1) ≤ q := by
      have := roundQ_mono_nonneg h.le (by linarith : q - 1 ≤ q)
      rwa [hrep] at this
    have hq0 : 0 ≤ q := by linarith
    have hlt : |roundQ (q - 1)| < (2 : ℚ) ^ 1024 := by
      rw [abs_of_nonneg hr0]
      rw [abs_of_nonneg hq0] at hfin
      exact lt_of_le_of_lt hrq hfin
    refine ⟨roundQ (q - 1), ?_, hr0, fun _ => hrq, fun h1 => absurd h1 (by linarith)⟩
    rw [F64.ofRat_of_roundQ rfl hlt]
    simp [F64.max, F64.le, hr0]

theorem roundHalfEven_half_odd (f : ℤ) (hf : f % 2 = 1) :
    roundHalfEven ((f : ℚ) + 1 / 2) = f + 1 := by
  have hfl : ⌊(f : ℚ) + 1 / 2⌋ = f := by
    rw [Int.floor_eq_iff]; constructor <;> norm_num
  simp only [roundHalfEven, hfl]
  norm_num [hf]

theorem roundHalfEven_half_even (f : ℤ) (hf : f % 2 = 0) :
    roundHalfEven ((f : ℚ) + 1 / 2) = f := by
  have hfl : ⌊(f : ℚ) + 1 / 2⌋ = f := by
    rw [Int.floor_eq_iff]; constructor <;> norm_num
  simp only [roundHalfEven, hfl]
  norm_num [hf]

theorem ofRat_ten_pow_sixteen_pred :
    F64.ofRat (10000000000000000 - 1) = F64.finite 10000000000000000 := by
  have h : roundQ (10000000000000000 - 1) = 10000000000000000 := by
    rw [roundQ_eval (e := 53) (by norm_num) (by norm_num [abs_of_pos]) (by norm_num [abs_of_pos])]
    have e1 : ((10000000000000000 : ℚ) - 1) / (2 : ℚ) ^ ((53 : ℤ) - 52)
        = ((4999999999999999 : ℤ) : ℚ) + 1 / 2 := by norm_num
    rw [e1, roundHalfEven_half_odd _ (by decide)]
    norm_num
  exact F64.ofRat_of_roundQ h (by norm_num [abs_of_pos])

theorem ofRat_two_pow_53_succ :
    F64.ofRat (9007199254740992 + 1) = F64.finite 9007199254740992 := by
  have h : roundQ (9007199254740992 + 1) = 9007199254740992 := by
    rw [roundQ_eval (e := 53) (by norm_num) (by norm_num [abs_of_pos]) (by norm_num [abs_of_pos])]
    have e1 : ((9007199254740992 : ℚ) + 1) / (2 : ℚ) ^ ((53 : ℤ) - 52)
        = ((4503599627370496 : ℤ) : ℚ) + 1 / 2 := by norm_num
    rw [e1, roundHalfEven_half_even _ (by decide)]
    norm_num
  exact F64.ofRat_of_roundQ h (by norm_num [abs_of_pos])

theorem ofRat_three_tenths :
    F64.ofRat (3 * (3602879701896397 / 2 ^ 55))
      = F64.finite (5404319552844596 / 2 ^ 54) := by
  have h : roundQ (3 * (3602879701896397 / 2 ^ 55)) = 5404319552844596 / 2 ^ 54 := by
    rw [roundQ_eval (e := -2) (by norm_num) (by norm_num [abs_of_pos]) (by norm_num [abs_of_pos])]
    have e1 : ((3 : ℚ) * (3602879701896397 / 2 ^ 55)) / (2 : ℚ) ^ ((-2 : ℤ) - 52)
        = ((5404319552844595 : ℤ) : ℚ) + 1 / 2 := by norm_num
    rw [e1, roundHalfEven_half_odd _ (by decide)]
    norm_num
  exact F64.ofRat_of_roundQ h (by norm_num [abs_of_pos])


/-! ## Auxiliary lemmas on the model -/

theorem orZero_double (d : Double) :
    (optNumber (some ⟨some d⟩)).orZero = F64.finite d.toRat := by
  by_cases h : d.toRat = 0 <;> simp [optNumber, JsValue.orZero, JsValue.truthy, h]

theorem orZero_null : (optNumber (some ⟨none⟩)).orZero = F64.finite 0 := rfl

theorem orZero_missing : (optNumber none).orZero = F64.finite 0 := rfl

/-- Every number the code reads with `X?.number || 0` is a finite binary64 value. -/
theorem orZero_cases (f : Option NumberProperty) :
    ∃ q : ℚ, (optNumber f).orZero = F64.finite q ∧ roundQ q = q ∧
      |q| < (2 : ℚ) ^ 1024 ∧ (f = none → q = 0) ∧ (f = some ⟨none⟩ → q = 0) ∧
      (∀ d, f = some ⟨some d⟩ → q = d.toRat) := by
  rcases f with _ | ⟨_ | d⟩
  · exact ⟨0, rfl, roundQ_zero, by norm_num, fun _ => rfl, fun _ => rfl,
      fun d h => by simp at h⟩
  · exact ⟨0, rfl, roundQ_zero, by norm_num, fun _ => rfl, fun _ => rfl,
      fun d h => by simp at h⟩
  · refine ⟨d.toRat, orZero_double d, roundQ_double d, d.abs_toRat_lt,
      fun h => by simp at h, fun h => by simp at h, fun d1 h => ?_⟩
    simp only [Option.some.injEq, NumberProperty.mk.injEq] at h
    rw [h]

/-- The new quantity is a finite, non-negative value, at most a non-negative quantity
read, and zero when the quantity read is at most 1. -/
theorem newQtyOf_spec (page : Page) :
    ∃ q n : ℚ, currentQtyOf page = F64.finite q ∧ newQtyOf page = F64.finite n ∧
      0 ≤ n ∧ (0 ≤ q → n ≤ q) ∧ (q ≤ 1 → n = 0) ∧
      (page.properties.Quantity = none → q = 0) ∧
      (page.properties.Quantity = some ⟨none⟩ → q = 0) ∧
      (∀ d, page.properties.Quantity = some ⟨some d⟩ → q = d.toRat) := by
  obtain ⟨q, hq, hrep, hfin, h1, h2, h3⟩ := orZero_cases page.properties.Quantity
  obtain ⟨n, hn, hn0, hnq, hn1⟩ := clamped_decrement q hrep hfin
  refine ⟨q, n, hq, ?_, hn0, hnq, hn1, h1, h2, h3⟩
  unfold newQtyOf currentQtyOf
  rw [hq, hn]

/-- The server handler on a found record and a successful update, computed. -/
theorem handler_found (cfg : Config) (now name : String) (hname : name ≠ "")
    (page : Page) (rest : List Page) :
    UpdateStock.handler cfg now (some name) (QueryResponse.ok (page :: rest))
        UpdateResponse.ok
      = (⟨200, UpdateStock.JsonBody.result
            { product := name
              oldQty := currentQtyOf page
              newQty := newQtyOf page
              totalConsumed := F64.add (totalConsumedOf page) (F64.finite 1)
              monthlyConsumed := F64.add (monthlyConsumedOf page) (F64.finite 1)
              price := priceOf page
              value := F64.mul (newQtyOf page) (priceOf page) }⟩,
         [UpdateStock.queryCall cfg name,
          UpdateStock.updateCall cfg now page.id (newQtyOf page)
            (F64.add (totalConsumedOf page) (F64.finite 1))
            (F64.add (monthlyConsumedOf page) (F64.finite 1))]) := by
  simp [UpdateStock.handler, UpdateStock.handlerTry, hname, currentQtyOf, priceOf,
    totalConsumedOf, monthlyConsumedOf, newQtyOf]

/-- The client entry point on a found record and a successful update, computed. -/
theorem useEffect_found (cfg : Config) (now name : String) (hname : name ≠ "")
    (page : Page) (rest : List Page) :
    StockScanner.useEffect cfg now (some name) (QueryResponse.ok (page :: rest))
        UpdateResponse.ok
      = ({ status := if F64.le (newQtyOf page) (F64.finite 2) then
                       StockScanner.Status.lowStock
                     else StockScanner.Status.success
           product := some
             { name := name
               oldQty := currentQtyOf page
               newQty := newQtyOf page
               price := priceOf page
               value := F64.mul (newQtyOf page) (priceOf page)
               totalConsumed := F64.add (totalConsumedOf page) (F64.finite 1)
               monthlyConsumed := F64.add (monthlyConsumedOf page) (F64.finite 1) }
           error := ""
           isProcessing := false },
         [StockScanner.queryCall cfg name,
          StockScanner.updateCall cfg now page.id (newQtyOf page)
            (F64.add (totalConsumedOf page) (F64.finite 1))
            (F64.add (monthlyConsumedOf page) (F64.finite 1))]) := by
  simp only [StockScanner.useEffect, StockScanner.subtractStock,
    StockScanner.subtractStockTry, StockScanner.initialState, hname, if_false, currentQtyOf,
    priceOf, totalConsumedOf, monthlyConsumedOf, newQtyOf]
  split_ifs <;> rfl

theorem handler_found_calls (cfg : Config) (now name : String) (hname : name ≠ "")
    (page : Page) (rest : List Page) (ur : UpdateResponse) :
    (UpdateStock.handler cfg now (some name) (QueryResponse.ok (page :: rest)) ur).2
      = [UpdateStock.queryCall cfg name,
         UpdateStock.updateCall cfg now page.id (newQtyOf page)
           (F64.add (totalConsumedOf page) (F64.finite 1))
           (F64.add (monthlyConsumedOf page) (F64.finite 1))] := by
  cases ur <;>
    simp [UpdateStock.handler, UpdateStock.handlerTry, hname, currentQtyOf,
      totalConsumedOf, monthlyConsumedOf, newQtyOf]

theorem useEffect_found_calls (cfg : Config) (now name : String) (hname : name ≠ "")
    (page : Page) (rest : List Page) (ur : UpdateResponse) :
    (StockScanner.useEffect cfg now (some name) (QueryResponse.ok (page :: rest)) ur).2
      = [StockScanner.queryCall cfg name,
         StockScanner.updateCall cfg now page.id (newQtyOf page)
           (F64.add (totalConsumedOf page) (F64.finite 1))
           (F64.add (monthlyConsumedOf page) (F64.finite 1))] := by
  cases ur <;>
    simp [StockScanner.useEffect, StockScanner.subtractStock,
      StockScanner.subtractStockTry, hname, currentQtyOf, totalConsumedOf,
      monthlyConsumedOf, newQtyOf]

/-- A result body is sent only for a successful update. -/
theorem handler_found_result (cfg : Config) (now name : String) (hname : name ≠ "")
    (page : Page) (rest : List Page) (ur : UpdateResponse) (r : UpdateStock.TransactionResult)
    (h : (UpdateStock.handler cfg now (some name) (QueryResponse.ok (page :: rest)) ur).1.body
      = UpdateStock.JsonBody.result r) :
    r.newQty = newQtyOf page := by
  cases ur with
  | failed m => simp [UpdateStock.handler, UpdateStock.handlerTry, hname] at h
  | notOk t => simp [UpdateStock.handler, UpdateStock.handlerTry, hname] at h
  | ok =>
    rw [handler_found cfg now name hname] at h
    simp only [UpdateStock.JsonBody.result.injEq] at h
    rw [← h]

/-- The client sets a product only after a successful update. -/
theorem useEffect_found_product (cfg : Config) (now name : String) (hname : name ≠ "")
    (page : Page) (rest : List Page) (ur : UpdateResponse) (p : StockScanner.Product)
    (h : (StockScanner.useEffect cfg now (some name) (QueryResponse.ok (page :: rest))
      ur).1.product = some p) :
    p.newQty = newQtyOf page := by
  cases ur with
  | failed m =>
    simp [StockScanner.useEffect, StockScanner.subtractStock,
      StockScanner.subtractStockTry, StockScanner.initialState, hname] at h
  | notOk t =>
    simp [StockScanner.useEffect, StockScanner.subtractStock,
      StockScanner.subtractStockTry, StockScanner.initialState, hname] at h
  | ok =>
    rw [useEffect_found cfg now name hname] at h
    simp only [Option.some.injEq] at h
    rw [← h]

theorem writes_server_pair (cfg : Config) (now name pageId : String) (a b c : F64) :
    writes [UpdateStock.queryCall cfg name, UpdateStock.updateCall cfg now pageId a b c]
      = [("https://api.notion.com/v1/pages/" ++ pageId,
          [("Quantity", PropertyValue.number a),
           ("Total Consumed", PropertyValue.number b),
           ("Consumed This Month", PropertyValue.number c),
           ("Last Consumed", PropertyValue.date now)])] := by
  simp [writes, UpdateStock.queryCall, UpdateStock.updateCall]

theorem writes_client_pair (cfg : Config) (now name pageId : String) (a b c : F64) :
    writes [StockScanner.queryCall cfg name, StockScanner.updateCall cfg now pageId a b c]
      = [("https://api.notion.com/v1/pages/" ++ pageId,
          [("Quantity", PropertyValue.number a),
           ("Total Consumed", PropertyValue.number b),
           ("Consumed This Month", PropertyValue.number c),
           ("Last Consumed", PropertyValue.date now)])] := by
  simp [writes, StockScanner.queryCall, StockScanner.updateCall]

theorem writtenNumbers_server_pair (cfg : Config) (now name pageId : String) (a b c : F64) :
    writtenNumbers "Quantity"
        [UpdateStock.queryCall cfg name, UpdateStock.updateCall cfg now pageId a b c]
      = [some a] ∧
    writtenNumbers "Total Consumed"
        [UpdateStock.queryCall cfg name, UpdateStock.updateCall cfg now pageId a b c]
      = [some b] ∧
    writtenNumbers "Consumed This Month"
        [UpdateStock.queryCall cfg name, UpdateStock.updateCall cfg now pageId a b c]
      = [some c] := by
  simp [writtenNumbers, writes_server_pair, lookupNumber]

theorem writtenNumbers_client_pair (cfg : Config) (now name pageId : String) (a b c : F64) :
    writtenNumbers "Quantity"
        [StockScanner.queryCall cfg name, StockScanner.updateCall cfg now pageId a b c]
      = [some a] ∧
    writtenNumbers "Total Consumed"
        [StockScanner.queryCall cfg name, StockScanner.updateCall cfg now pageId a b c]
      = [some b] ∧
    writtenNumbers "Consumed This Month"
        [StockScanner.queryCall cfg name, StockScanner.updateCall cfg now pageId a b c]
      = [some c] := by
  simp [writtenNumbers, writes_client_pair, lookupNumber]

/-- The clamped decrement of an integer quantity `0 < q ≤ 2 ^ 53` is exactly `q - 1`. -/
theorem newQtyOf_int (page : Page) (d : Double) (q : ℤ) (hq : 0 < q) (hq53 : q ≤ 2 ^ 53)
    (hQ : page.properties.Quantity = some ⟨some d⟩) (hd : d.toRat = (q : ℚ)) :
    currentQtyOf page = F64.finite (q : ℚ) ∧ newQtyOf page = F64.finite ((q : ℚ) - 1) := by
  have hcur : currentQtyOf page = F64.finite (q : ℚ) := by
    unfold currentQtyOf
    rw [hQ, orZero_double, hd]
  refine ⟨hcur, ?_⟩
  unfold newQtyOf
  rw [hcur]
  have hsub : F64.sub (F64.finite (q : ℚ)) (F64.finite 1) = F64.ofRat (((q - 1 : ℤ) : ℚ)) := by
    show F64.ofRat ((q : ℚ) - 1) = _
    push_cast
    rfl
  rw [hsub, F64.ofRat_intCast (q - 1) (by rw [abs_of_nonneg (by omega)]; omega)]
  have h0 : (0 : ℚ) ≤ ((q - 1 : ℤ) : ℚ) := by exact_mod_cast (by omega : (0 : ℤ) ≤ q - 1)
  simp only [F64.max, F64.le, h0, decide_True, if_true]
  push_cast
  rfl

/-- Adding 1 to an integer counter `-2 ^ 53 ≤ t < 2 ^ 53` is exact. -/
theorem add_one_int (t : ℤ) (h1 : -2 ^ 53 ≤ t) (h2 : t < 2 ^ 53) :
    F64.add (F64.finite (t : ℚ)) (F64.finite 1) = F64.finite ((t : ℚ) + 1) := by
  have hadd : F64.add (F64.finite (t : ℚ)) (F64.finite 1) = F64.ofRat (((t + 1 : ℤ) : ℚ)) := by
    show F64.ofRat ((t : ℚ) + 1) = _
    push_cast
    rfl
  rw [hadd, F64.ofRat_intCast (t + 1) (by rw [abs_le]; constructor <;> omega)]
  push_cast
  rfl

/-- The product of two integers is exact when its magnitude is at most `2 ^ 53`. -/
theorem mul_int (a b : ℤ) (h : |a * b| ≤ 2 ^ 53) :
    F64.mul (F64.finite (a : ℚ)) (F64.finite (b : ℚ)) = F64.finite ((a : ℚ) * (b : ℚ)) := by
  have hmul : F64.mul (F64.finite (a : ℚ)) (F64.finite (b : ℚ))
      = F64.ofRat (((a * b : ℤ) : ℚ)) := by
    show F64.ofRat ((a : ℚ) * (b : ℚ)) = _
    push_cast
    rfl
  rw [hmul, F64.ofRat_intCast (a * b) h]
  push_cast
  rfl

theorem mul_zero_right (n : ℚ) : F64.mul (F64.finite n) (F64.finite 0) = F64.finite 0 := by
  show F64.ofRat (n * 0) = _
  rw [mul_zero, F64.ofRat_zero]

theorem mul_zero_left (p : ℚ) : F64.mul (F64.finite 0) (F64.finite p) = F64.finite 0 := by
  show F64.ofRat (0 * p) = _
  rw [zero_mul, F64.ofRat_zero]

/-! ## The claims -/

/-- C1 as stated fails: for the found record whose Quantity is the integer
`10 ^ 16 > 0`, a successful transaction reports `oldQty = 10 ^ 16` and writes and reports
`newQty = 10 ^ 16` again, not `10 ^ 16 - 1`, because `1e16 - 1` rounds to `1e16` in
binary64. -/
theorem C1_quantity_above_two_pow_53_not_decremented :
    hugeStock.properties.Quantity = some ⟨some tenQuadrillion⟩ ∧
    tenQuadrillion.toRat = ((10000000000000000 : ℤ) : ℚ) ∧
    (0 : ℤ) < 10000000000000000 ∧
    (∃ r, (UpdateStock.handler cfg0 now0 (some "Filter E") (QueryResponse.ok [hugeStock])
              UpdateResponse.ok).1 = ⟨200, UpdateStock.JsonBody.result r⟩ ∧
          r.oldQty = F64.finite 10000000000000000 ∧
          r.newQty = F64.finite 10000000000000000 ∧
          r.newQty ≠ F64.finite (10000000000000000 - 1)) ∧
    writtenNumbers "Quantity"
        (UpdateStock.handler cfg0 now0 (some "Filter E") (QueryResponse.ok [hugeStock])
          UpdateResponse.ok).2 = [some (F64.finite 10000000000000000)] ∧
    (∃ p, (StockScanner.useEffect cfg0 now0 (some "Filter E") (QueryResponse.ok [hugeStock])
              UpdateResponse.ok).1.product = some p ∧
          p.newQty = F64.finite 10000000000000000) := by
  have hd : tenQuadrillion.toRat = 10000000000000000 := by
    norm_num [tenQuadrillion, Double.toRat]
  have hcur : currentQtyOf hugeStock = F64.finite 10000000000000000 := by
    unfold currentQtyOf
    rw [show hugeStock.properties.Quantity = some ⟨some tenQuadrillion⟩ from rfl,
      orZero_double, hd]
  have hnew : newQtyOf hugeStock = F64.finite 10000000000000000 := by
    unfold newQtyOf
    rw [hcur]
    have hsub : F64.sub (F64.finite 10000000000000000) (F64.finite 1)
        = F64.ofRat (10000000000000000 - 1) := rfl
    rw [hsub, ofRat_ten_pow_sixteen_pred]
    simp [F64.max, F64.le]
  rw [handler_found cfg0 now0 "Filter E" (by decide), useEffect_found cfg0 now0 "Filter E"
    (by decide), hcur, hnew]
  refine ⟨rfl, by rw [hd]; norm_num, by decide, ⟨_, rfl, rfl, rfl, ?_⟩,
    (writtenNumbers_server_pair _ _ _ _ _ _ _).1, ⟨_, rfl, rfl⟩⟩
  simp only [ne_eq, F64.finite.injEq]
  norm_num

/-- C1, amended: for a found record whose Quantity is an integer `q` with
`0 < q ≤ 2 ^ 53` (any price, any counters), a successful transaction reports `oldQty = q`
and `newQty = q - 1` in both entry points, writes `q - 1` as the Quantity of its single
PATCH call, and the client ends in status `low-stock` exactly when `q - 1 ≤ 2` and in
status `success` exactly when not. -/
theorem C1_positive_quantity_decrement (cfg : Config) (now name : String)
    (page : Page) (rest : List Page) (d : Double) (q : ℤ)
    (hname : name ≠ "") (hq : 0 < q) (hq53 : q ≤ 2 ^ 53)
    (hQ : page.properties.Quantity = some ⟨some d⟩) (hd : d.toRat = (q : ℚ)) :
    (∃ r, (UpdateStock.handler cfg now (some name) (QueryResponse.ok (page :: rest))
              UpdateResponse.ok).1 = ⟨200, UpdateStock.JsonBody.result r⟩ ∧
          r.oldQty = F64.finite (q : ℚ) ∧ r.newQty = F64.finite ((q : ℚ) - 1)) ∧
    writtenNumbers "Quantity"
        (UpdateStock.handler cfg now (some name) (QueryResponse.ok (page :: rest))
          UpdateResponse.ok).2 = [some (F64.finite ((q : ℚ) - 1))] ∧
    (∃ p, (StockScanner.useEffect cfg now (some name) (QueryResponse.ok (page :: rest))
              UpdateResponse.ok).1.product = some p ∧
          p.oldQty = F64.finite (q : ℚ) ∧ p.newQty = F64.finite ((q : ℚ) - 1)) ∧
    writtenNumbers "Quantity"
        (StockScanner.useEffect cfg now (some name) (QueryResponse.ok (page :: rest))
          UpdateResponse.ok).2 = [some (F64.finite ((q : ℚ) - 1))] ∧
    ((StockScanner.useEffect cfg now (some name) (QueryResponse.ok (page :: rest))
          UpdateResponse.ok).1.status = StockScanner.Status.lowStock ↔ q - 1 ≤ 2) ∧
    ((StockScanner.useEffect cfg now (some name) (QueryResponse.ok (page :: rest))
          UpdateResponse.ok).1.status = StockScanner.Status.success ↔ ¬ (q - 1 ≤ 2)) := by
  obtain ⟨hcur, hnew⟩ := newQtyOf_int page d q hq hq53 hQ hd
  have hle : ((q : ℚ) - 1 ≤ 2) ↔ q - 1 ≤ 2 := by
    constructor
    · intro h; exact_mod_cast h
    · intro h; exact_mod_cast h
  rw [handler_found cfg now name hname, useEffect_found cfg now name hname, hcur, hnew]
  refine ⟨⟨_, rfl, rfl, rfl⟩, (writtenNumbers_server_pair _ _ _ _ _ _ _).1,
    ⟨_, rfl, rfl, rfl⟩, (writtenNumbers_client_pair _ _ _ _ _ _ _).1, ?_, ?_⟩
  · by_cases h : q - 1 ≤ 2
    · simp [F64.le, h, hle.2 h]
    · simp [F64.le, h, mt hle.1 h]
  · by_cases h : q - 1 ≤ 2
    · simp [F64.le, h, hle.2 h]
    · simp [F64.le, h, mt hle.1 h]

/-- C1 amended, the two scenarios: quantity 3 gives `newQty = 2` and `low-stock`,
quantity 10 gives `newQty = 9` and `success`. -/
theorem C1_positive_quantity_decrement_witness :
    ("Filter A" ≠ "" ∧ (0 : ℤ) < 3 ∧ (3 : ℤ) ≤ 2 ^ 53 ∧
      filterA.properties.Quantity = some ⟨some (Double.ofNat 3 (by decide))⟩ ∧
      (Double.ofNat 3 (by decide)).toRat = ((3 : ℤ) : ℚ) ∧
      writtenNumbers "Quantity"
        (UpdateStock.handler cfg0 now0 (some "Filter A") (QueryResponse.ok [filterA])
          UpdateResponse.ok).2 = [some (F64.finite (((3 : ℤ) : ℚ) - 1))] ∧
      (StockScanner.useEffect cfg0 now0 (some "Filter A") (QueryResponse.ok [filterA])
          UpdateResponse.ok).1.status = StockScanner.Status.lowStock) ∧
    ("Filter B" ≠ "" ∧ (0 : ℤ) < 10 ∧ (10 : ℤ) ≤ 2 ^ 53 ∧
      filterB.properties.Quantity = some ⟨some (Double.ofNat 10 (by decide))⟩ ∧
      (Double.ofNat 10 (by decide)).toRat = ((10 : ℤ) : ℚ) ∧
      writtenNumbers "Quantity"
        (UpdateStock.handler cfg0 now0 (some "Filter B") (QueryResponse.ok [filterB])
          UpdateResponse.ok).2 = [some (F64.finite (((10 : ℤ) : ℚ) - 1))] ∧
      (StockScanner.useEffect cfg0 now0 (some "Filter B") (QueryResponse.ok [filterB])
          UpdateResponse.ok).1.status = StockScanner.Status.success) :=
  ⟨⟨by decide, by decide, by decide, rfl, by simp [Double.toRat_ofNat],
     (C1_positive_quantity_decrement cfg0 now0 "Filter A" filterA []
        (Double.ofNat 3 (by decide)) 3 (by decide) (by decide) (by decide) rfl
        (by simp [Double.toRat_ofNat])).2.1,
     (C1_positive_quantity_decrement cfg0 now0 "Filter A" filterA []
        (Double.ofNat 3 (by decide)) 3 (by decide) (by decide) (by decide) rfl
        (by simp [Double.toRat_ofNat])).2.2.2.2.1.2 (by decide)⟩,
   ⟨by decide, by decide, by decide, rfl, by simp [Double.toRat_ofNat],
     (C1_positive_quantity_decrement cfg0 now0 "Filter B" filterB []
        (Double.ofNat 10 (by decide)) 10 (by decide) (by decide) (by decide) rfl
        (by simp [Double.toRat_ofNat])).2.1,
     (C1_positive_quantity_decrement cfg0 now0 "Filter B" filterB []
        (Double.ofNat 10 (by decide)) 10 (by decide) (by decide) (by decide) rfl
        (by simp [Double.toRat_ofNat])).2.2.2.2.2.2 (by decide)⟩⟩

/-- C2 as stated fails: for the found record with Quantity 0 whose Total Consumed
counter is `t = 2 ^ 53`, a successful transaction writes and reports the counter
`2 ^ 53` again, not `t + 1`, because `2 ^ 53 + 1` rounds to `2 ^ 53` in binary64. -/
theorem C2_counter_at_two_pow_53_not_incremented :
    wornCounter.properties.TotalConsumed = some ⟨some twoPow53⟩ ∧
    twoPow53.toRat = 9007199254740992 ∧
    (∃ r, (UpdateStock.handler cfg0 now0 (some "Filter F") (QueryResponse.ok [wornCounter])
              UpdateResponse.ok).1 = ⟨200, UpdateStock.JsonBody.result r⟩ ∧
          r.totalConsumed = F64.finite 9007199254740992 ∧
          r.totalConsumed ≠ F64.finite (9007199254740992 + 1)) ∧
    writtenNumbers "Total Consumed"
        (UpdateStock.handler cfg0 now0 (some "Filter F") (QueryResponse.ok [wornCounter])
          UpdateResponse.ok).2 = [some (F64.finite 9007199254740992)] ∧
    (∃ p, (StockScanner.useEffect cfg0 now0 (some "Filter F")
              (QueryResponse.ok [wornCounter]) UpdateResponse.ok).1.product = some p ∧
          p.totalConsumed = F64.finite 9007199254740992) := by
  have hd : twoPow53.toRat = 9007199254740992 := by
    norm_num [twoPow53, Double.toRat]
  have hcur : totalConsumedOf wornCounter = F64.finite 9007199254740992 := by
    unfold totalConsumedOf
    rw [show wornCounter.properties.TotalConsumed = some ⟨some twoPow53⟩ from rfl,
      orZero_double, hd]
  have hadd : F64.add (totalConsumedOf wornCounter) (F64.finite 1)
      = F64.finite 9007199254740992 := by
    rw [hcur]
    exact ofRat_two_pow_53_succ
  rw [handler_found cfg0 now0 "Filter F" (by decide), useEffect_found cfg0 now0 "Filter F"
    (by decide), hadd]
  refine ⟨rfl, hd, ⟨_, rfl, rfl, ?_⟩, (writtenNumbers_server_pair _ _ _ _ _ _ _).2.1,
    ⟨_, rfl, rfl⟩⟩
  simp only [ne_eq, F64.finite.injEq]
  norm_num

/-- C2, amended: for every found record, a successful transaction in either entry point
writes and reports, as `totalConsumed` and `monthlyConsumed`, the binary64 sums of the
counters read and 1, whatever the quantity; for an integer counter `c` with
`-2 ^ 53 ≤ c < 2 ^ 53` the sum is exactly `c + 1`; and when the record's Quantity is 0
the new quantity written and reported is 0 while the counters are still incremented. -/
theorem C2_counters_increment_unconditionally (cfg : Config) (now name : String)
    (page : Page) (rest : List Page) (hname : name ≠ "") :
    ∃ T M : F64,
      T = F64.add (totalConsumedOf page) (F64.finite 1) ∧
      M = F64.add (monthlyConsumedOf page) (F64.finite 1) ∧
      (∃ r, (UpdateStock.handler cfg now (some name) (QueryResponse.ok (page :: rest))
                UpdateResponse.ok).1 = ⟨200, UpdateStock.JsonBody.result r⟩ ∧
            r.totalConsumed = T ∧ r.monthlyConsumed = M ∧
            (∀ d, page.properties.Quantity = some ⟨some d⟩ → d.toRat = 0 →
              r.newQty = F64.finite 0)) ∧
      (∃ p, (StockScanner.useEffect cfg now (some name) (QueryResponse.ok (page :: rest))
                UpdateResponse.ok).1.product = some p ∧
            p.totalConsumed = T ∧ p.monthlyConsumed = M ∧
            (∀ d, page.properties.Quantity = some ⟨some d⟩ → d.toRat = 0 →
              p.newQty = F64.finite 0)) ∧
      writtenNumbers "Total Consumed"
          (UpdateStock.handler cfg now (some name) (QueryResponse.ok (page :: rest))
            UpdateResponse.ok).2 = [some T] ∧
      writtenNumbers "Consumed This Month"
          (UpdateStock.handler cfg now (some name) (QueryResponse.ok (page :: rest))
            UpdateResponse.ok).2 = [some M] ∧
      writtenNumbers "Total Consumed"
          (StockScanner.useEffect cfg now (some name) (QueryResponse.ok (page :: rest))
            UpdateResponse.ok).2 = [some T] ∧
      writtenNumbers "Consumed This Month"
          (StockScanner.useEffect cfg now (some name) (QueryResponse.ok (page :: rest))
            UpdateResponse.ok).2 = [some M] ∧
      (∀ d, page.properties.Quantity = some ⟨some d⟩ → d.toRat = 0 →
        writtenNumbers "Quantity"
            (UpdateStock.handler cfg now (some name) (QueryResponse.ok (page :: rest))
              UpdateResponse.ok).2 = [some (F64.finite 0)] ∧
        writtenNumbers "Quantity"
            (StockScanner.useEffect cfg now (some name) (QueryResponse.ok (page :: rest))
              UpdateResponse.ok).2 = [some (F64.finite 0)]) ∧
      (∀ (d : Double) (t : ℤ), page.properties.TotalConsumed = some ⟨some d⟩ →
        d.toRat = (t : ℚ) → -2 ^ 53 ≤ t → t < 2 ^ 53 → T = F64.finite ((t : ℚ) + 1)) ∧
      (∀ (d : Double) (m : ℤ), page.properties.ConsumedThisMonth = some ⟨some d⟩ →
        d.toRat = (m : ℚ) → -2 ^ 53 ≤ m → m < 2 ^ 53 → M = F64.finite ((m : ℚ) + 1)) ∧
      (page.properties.TotalConsumed = none ∨ page.properties.TotalConsumed = some ⟨none⟩ →
        T = F64.finite 1) ∧
      (page.properties.ConsumedThisMonth = none ∨
        page.properties.ConsumedThisMonth = some ⟨none⟩ → M = F64.finite 1) := by
  have hzero : ∀ d, page.properties.Quantity = some ⟨some d⟩ → d.toRat = 0 →
      newQtyOf page = F64.finite 0 := by
    intro d hQ hd
    obtain ⟨q, n, _, hn, _, _, hn1, _, _, h3⟩ := newQtyOf_spec page
    have hq : q = 0 := by rw [h3 d hQ, hd]
    rw [hn, hn1 (by rw [hq]; norm_num)]
  have hone : F64.add (F64.finite 0) (F64.finite 1) = F64.finite 1 := by
    have := add_one_int 0 (by norm_num) (by norm_num)
    simpa using this
  rw [handler_found cfg now name hname, useEffect_found cfg now name hname]
  refine ⟨_, _, rfl, rfl, ⟨_, rfl, rfl, rfl, fun d h1 h2 => hzero d h1 h2⟩,
    ⟨_, rfl, rfl, rfl, fun d h1 h2 => hzero d h1 h2⟩,
    (writtenNumbers_server_pair _ _ _ _ _ _ _).2.1,
    (writtenNumbers_server_pair _ _ _ _ _ _ _).2.2,
    (writtenNumbers_client_pair _ _ _ _ _ _ _).2.1,
    (writtenNumbers_client_pair _ _ _ _ _ _ _).2.2, ?_, ?_, ?_, ?_, ?_⟩
  · intro d h1 h2
    rw [hzero d h1 h2]
    exact ⟨(writtenNumbers_server_pair _ _ _ _ _ _ _).1,
      (writtenNumbers_client_pair _ _ _ _ _ _ _).1⟩
  · intro d t h hd h1 h2
    unfold totalConsumedOf
    rw [h, orZero_double, hd]
    exact add_one_int t h1 h2
  · intro d m h hd h1 h2
    unfold monthlyConsumedOf
    rw [h, orZero_double, hd]
    exact add_one_int m h1 h2
  · rintro (h | h)
    · unfold totalConsumedOf; rw [h, orZero_missing]; exact hone
    · unfold totalConsumedOf; rw [h, orZero_null]; exact hone
  · rintro (h | h)
    · unfold monthlyConsumedOf; rw [h, orZero_missing]; exact hone
    · unfold monthlyConsumedOf; rw [h, orZero_null]; exact hone

/-- C2 amended, on the record with quantity 0 and counters 6 and 4: the PATCH call of the
server writes Total Consumed 7 and the PATCH call of the client writes Quantity 0. -/
theorem C2_counters_increment_unconditionally_witness :
    "Filter C" ≠ "" ∧
    writtenNumbers "Total Consumed"
        (UpdateStock.handler cfg0 now0 (some "Filter C") (QueryResponse.ok [emptyShelf])
          UpdateResponse.ok).2 = [some (F64.finite (((6 : ℤ) : ℚ) + 1))] ∧
    writtenNumbers "Quantity"
        (StockScanner.useEffect cfg0 now0 (some "Filter C") (QueryResponse.ok [emptyShelf])
          UpdateResponse.ok).2 = [some (F64.finite 0)] := by
  refine ⟨by decide, ?_⟩
  obtain ⟨T, M, _, _, _, _, h5, _, _, _, h9, h10, _⟩ :=
    C2_counters_increment_unconditionally cfg0 now0 "Filter C" emptyShelf [] (by decide)
  have hT := h10 (Double.ofNat 6 (by decide)) 6 rfl (by simp [Double.toRat_ofNat])
    (by norm_num) (by norm_num)
  refine ⟨by rw [h5, hT], ?_⟩
  exact (h9 (Double.ofNat 0 (by decide)) rfl (by simp [Double.toRat_ofNat])).2

/-- C3 as stated fails: for the found record with Quantity 4 and Price 0.1 (the binary64
value `3602879701896397 / 2 ^ 55`), a successful transaction reports `newQty = 3`, that
price, and the value `5404319552844596 / 2 ^ 54` (0.30000000000000004), which is not
`newQty * price`. -/
theorem C3_value_is_rounded_product :
    ∃ r, (UpdateStock.handler cfg0 now0 (some "Filter G") (QueryResponse.ok [dimePriced])
            UpdateResponse.ok).1 = ⟨200, UpdateStock.JsonBody.result r⟩ ∧
         r.newQty = F64.finite 3 ∧
         r.price = F64.finite (3602879701896397 / 2 ^ 55) ∧
         r.value = F64.finite (5404319552844596 / 2 ^ 54) ∧
         r.value ≠ F64.finite (3 * (3602879701896397 / 2 ^ 55)) := by
  have hd : oneTenth.toRat = 3602879701896397 / 2 ^ 55 := by
    norm_num [oneTenth, Double.toRat]
  have hprice : priceOf dimePriced = F64.finite (3602879701896397 / 2 ^ 55) := by
    unfold priceOf
    rw [show dimePriced.properties.Price = some ⟨some oneTenth⟩ from rfl, orZero_double, hd]
  have hnew : newQtyOf dimePriced = F64.finite 3 := by
    have := (newQtyOf_int dimePriced (Double.ofNat 4 (by decide)) 4 (by decide) (by decide)
      rfl (by simp [Double.toRat_ofNat])).2
    rw [this]
    norm_num
  have hval : F64.mul (newQtyOf dimePriced) (priceOf dimePriced)
      = F64.finite (5404319552844596 / 2 ^ 54) := by
    rw [hnew, hprice]
    exact ofRat_three_tenths
  rw [handler_found cfg0 now0 "Filter G" (by decide), hval, hnew, hprice]
  refine ⟨_, rfl, rfl, rfl, rfl, ?_⟩
  simp only [ne_eq, F64.finite.injEq]
  norm_num

/-- C3, amended: for every successful transaction the reported value is the binary64
product `newQty * price` of the reported new quantity and the reported unit price, in both
entry points, where the new quantity is the clamped decrement `Math.max(0, currentQty - 1)`
of the quantity read and the price is the price read; the product is exact for integer
factors whose product has magnitude at most `2 ^ 53`; the value is 0 when the Price is 0,
null or missing, and when the Quantity read is 0 or 1. -/
theorem C3_value_is_new_quantity_times_price (cfg : Config) (now name : String)
    (page : Page) (rest : List Page) (hname : name ≠ "") :
    ∃ r p,
      (UpdateStock.handler cfg now (some name) (QueryResponse.ok (page :: rest))
          UpdateResponse.ok).1 = ⟨200, UpdateStock.JsonBody.result r⟩ ∧
      (StockScanner.useEffect cfg now (some name) (QueryResponse.ok (page :: rest))
          UpdateResponse.ok).1.product = some p ∧
      r.value = F64.mul r.newQty r.price ∧ p.value = F64.mul p.newQty p.price ∧
      r.newQty = F64.max (F64.finite 0) (F64.sub (currentQtyOf page) (F64.finite 1)) ∧
      p.newQty = F64.max (F64.finite 0) (F64.sub (currentQtyOf page) (F64.finite 1)) ∧
      r.price = priceOf page ∧ p.price = priceOf page ∧
      (∀ a b : ℤ, r.newQty = F64.finite (a : ℚ) → r.price = F64.finite (b : ℚ) →
        |a * b| ≤ 2 ^ 53 →
        r.value = F64.finite ((a : ℚ) * (b : ℚ)) ∧ p.value = F64.finite ((a : ℚ) * (b : ℚ))) ∧
      ((page.properties.Price = none ∨ page.properties.Price = some ⟨none⟩ ∨
          (∃ d, page.properties.Price = some ⟨some d⟩ ∧ d.toRat = 0)) →
        r.value = F64.finite 0 ∧ p.value = F64.finite 0) ∧
      ((∃ d, page.properties.Quantity = some ⟨some d⟩ ∧ (d.toRat = 0 ∨ d.toRat = 1)) →
        r.value = F64.finite 0 ∧ p.value = F64.finite 0) := by
  obtain ⟨q, n, _, hn, _, _, hn1, _, _, hq3⟩ := newQtyOf_spec page
  obtain ⟨pr, hpr, _, _, hp1, hp2, hp3⟩ := orZero_cases page.properties.Price
  have hprice : priceOf page = F64.finite pr := hpr
  rw [handler_found cfg now name hname, useEffect_found cfg now name hname]
  refine ⟨_, _, rfl, rfl, rfl, rfl, rfl, rfl, rfl, rfl, ?_, ?_, ?_⟩
  · intro a b ha hb hab
    simp only at ha hb ⊢
    rw [ha, hb]
    exact ⟨mul_int a b hab, mul_int a b hab⟩
  · intro h
    have hp0 : pr = 0 := by
      rcases h with h | h | ⟨d, h, hd⟩
      · exact hp1 h
      · exact hp2 h
      · rw [hp3 d h, hd]
    simp only
    rw [hn, hprice, hp0]
    exact ⟨mul_zero_right n, mul_zero_right n⟩
  · rintro ⟨d, h, hd⟩
    have hq1 : q ≤ 1 := by
      rw [hq3 d h]
      rcases hd with hd | hd <;> norm_num [hd]
    simp only
    rw [hn, hn1 hq1, hprice]
    exact ⟨mul_zero_left pr, mul_zero_left pr⟩

/-- C3 amended, on the first scenario: quantity 3 and price 5 give the value
`2 * 5 = 10`. -/
theorem C3_value_is_new_quantity_times_price_witness :
    "Filter A" ≠ "" ∧
    ∃ r, (UpdateStock.handler cfg0 now0 (some "Filter A") (QueryResponse.ok [filterA])
            UpdateResponse.ok).1 = ⟨200, UpdateStock.JsonBody.result r⟩ ∧
         r.value = F64.mul r.newQty r.price ∧ r.newQty = F64.finite 2 ∧
         r.price = F64.finite 5 ∧ r.value = F64.finite 10 := by
  refine ⟨by decide, ?_⟩
  obtain ⟨r, p, h1, _, h3, _, h5, _, h7, _, h9, _⟩ :=
    C3_value_is_new_quantity_times_price cfg0 now0 "Filter A" filterA [] (by decide)
  have hn : r.newQty = F64.finite 2 := by
    rw [h5]
    have := (newQtyOf_int filterA (Double.ofNat 3 (by decide)) 3 (by decide) (by decide)
      rfl (by simp [Double.toRat_ofNat])).2
    unfold newQtyOf at this
    rw [this]
    norm_num
  have hp : r.price = F64.finite 5 := by
    rw [h7]
    unfold priceOf
    rw [show filterA.properties.Price = some ⟨some (Double.ofNat 5 (by decide))⟩ from rfl,
      orZero_double, Double.toRat_ofNat]
    norm_num
  have hv := (h9 2 5 (by rw [hn]; norm_num) (by rw [hp]; norm_num) (by norm_num)).1
  exact ⟨r, h1, h3, hn, hp, by rw [hv]; norm_num⟩

/-- C9: for every found record, whatever its Quantity property holds and whatever the
update call answers, both entry points send one Quantity value `n` in the update, it is
the `newQty` reported on success, it is a finite number `n ≥ 0`, `n` is at most the
quantity read when that quantity is `≥ 0`, and `n = 0` when the Quantity is missing, null
or negative. -/
theorem C9_quantity_never_negative (cfg : Config) (now name : String)
    (page : Page) (rest : List Page) (ur : UpdateResponse) (hname : name ≠ "") :
    ∃ n : ℚ,
      writtenNumbers "Quantity"
        (UpdateStock.handler cfg now (some name) (QueryResponse.ok (page :: rest)) ur).2
          = [some (F64.finite n)] ∧
      writtenNumbers "Quantity"
        (StockScanner.useEffect cfg now (some name) (QueryResponse.ok (page :: rest)) ur).2
          = [some (F64.finite n)] ∧
      (∀ r, (UpdateStock.handler cfg now (some name) (QueryResponse.ok (page :: rest))
              ur).1.body = UpdateStock.JsonBody.result r → r.newQty = F64.finite n) ∧
      (∀ p, (StockScanner.useEffect cfg now (some name) (QueryResponse.ok (page :: rest))
              ur).1.product = some p → p.newQty = F64.finite n) ∧
      0 ≤ n ∧
      (∀ d : Double, page.properties.Quantity = some ⟨some d⟩ → 0 ≤ d.toRat →
        n ≤ d.toRat) ∧
      (page.properties.Quantity = none → n = 0) ∧
      (page.properties.Quantity = some ⟨none⟩ → n = 0) ∧
      (∀ d : Double, page.properties.Quantity = some ⟨some d⟩ → d.toRat < 0 → n = 0) := by
  obtain ⟨q, n, _, hn, hn0, hnq, hn1, hq1, hq2, hq3⟩ := newQtyOf_spec page
  refine ⟨n, ?_, ?_, ?_, ?_, hn0, ?_, ?_, ?_, ?_⟩
  · rw [handler_found_calls cfg now name hname, hn]
    exact (writtenNumbers_server_pair _ _ _ _ _ _ _).1
  · rw [useEffect_found_calls cfg now name hname, hn]
    exact (writtenNumbers_client_pair _ _ _ _ _ _ _).1
  · intro r h
    rw [handler_found_result cfg now name hname page rest ur r h, hn]
  · intro p h
    rw [useEffect_found_product cfg now name hname page rest ur p h, hn]
  · intro d h hd
    have := hq3 d h
    rw [← this]
    exact hnq (by rw [this]; exact hd)
  · intro h
    exact hn1 (by rw [hq1 h]; norm_num)
  · intro h
    exact hn1 (by rw [hq2 h]; norm_num)
  · intro d h hd
    exact hn1 (by rw [hq3 d h]; linarith)

/-- C9 on a record without any Quantity property and a failing update: the Quantity sent
is 0. -/
theorem C9_quantity_never_negative_witness :
    "Filter D" ≠ "" ∧
    ∃ n : ℚ,
      writtenNumbers "Quantity"
        (UpdateStock.handler cfg0 now0 (some "Filter D") (QueryResponse.ok [bareRecord])
          (UpdateResponse.notOk "conflict")).2 = [some (F64.finite n)] ∧
      writtenNumbers "Quantity"
        (StockScanner.useEffect cfg0 now0 (some "Filter D") (QueryResponse.ok [bareRecord])
          (UpdateResponse.notOk "conflict")).2 = [some (F64.finite n)] ∧
      0 ≤ n ∧ n = 0 := by
  refine ⟨by decide, ?_⟩
  obtain ⟨n, h1, h2, _, _, h5, _, h7, _⟩ :=
    C9_quantity_never_negative cfg0 now0 "Filter D" bareRecord []
      (UpdateResponse.notOk "conflict") (by decide)
  exact ⟨n, h1, h2, h5, h7 rfl⟩

/-- C4: for every non-empty product name, when the query succeeds with an empty results
list (whatever the update call would answer), the server handler responds 404 with an
error message containing the name and its remote calls are exactly the single query;
the client ends in status `error` with a message containing the name, and its remote
calls are exactly the single query as well, so neither issues a write call. -/
theorem C4_not_found_no_write (cfg : Config) (now name : String) (ur : UpdateResponse)
    (hname : name ≠ "") :
    (∃ msg, UpdateStock.handler cfg now (some name) (QueryResponse.ok []) ur
              = (⟨404, UpdateStock.JsonBody.error msg⟩, [UpdateStock.queryCall cfg name]) ∧
            containsText msg name) ∧
    writeCalls (UpdateStock.handler cfg now (some name) (QueryResponse.ok []) ur).2 = [] ∧
    (StockScanner.useEffect cfg now (some name) (QueryResponse.ok []) ur).1.status
      = StockScanner.Status.error ∧
    containsText (StockScanner.useEffect cfg now (some name) (QueryResponse.ok []) ur).1.error
      name ∧
    (StockScanner.useEffect cfg now (some name) (QueryResponse.ok []) ur).2
      = [StockScanner.queryCall cfg name] ∧
    writeCalls (StockScanner.useEffect cfg now (some name) (QueryResponse.ok []) ur).2
      = [] := by
  refine ⟨⟨"Product '" ++ name ++ "' not found in database", ?_, ?_⟩, ?_, ?_, ?_, ?_, ?_⟩
  · simp [UpdateStock.handler, UpdateStock.handlerTry, hname]
  · exact ⟨"Product '".data, "' not found in database".data, by simp [String.data_append]⟩
  · simp [UpdateStock.handler, UpdateStock.handlerTry, hname, writeCalls,
      UpdateStock.queryCall]
  · simp [StockScanner.useEffect, StockScanner.subtractStock,
      StockScanner.subtractStockTry, hname]
  · simp only [StockScanner.useEffect, StockScanner.subtractStock,
      StockScanner.subtractStockTry, hname, if_false]
    exact ⟨"Product \"".data, "\" not found in database".data,
      by simp [String.data_append]⟩
  · simp [StockScanner.useEffect, StockScanner.subtractStock,
      StockScanner.subtractStockTry, hname]
  · simp [StockScanner.useEffect, StockScanner.subtractStock,
      StockScanner.subtractStockTry, hname, writeCalls, StockScanner.queryCall]

/-- C4 on the name "Ghost": the server answers 404 after the single query, and the client
message contains the name. -/
theorem C4_not_found_no_write_witness :
    "Ghost" ≠ "" ∧
    (∃ msg, UpdateStock.handler cfg0 now0 (some "Ghost") (QueryResponse.ok [])
                UpdateResponse.ok
              = (⟨404, UpdateStock.JsonBody.error msg⟩, [UpdateStock.queryCall cfg0 "Ghost"]) ∧
            containsText msg "Ghost") ∧
    containsText (StockScanner.useEffect cfg0 now0 (some "Ghost") (QueryResponse.ok [])
      UpdateResponse.ok).1.error "Ghost" :=
  ⟨by decide,
   (C4_not_found_no_write cfg0 now0 "Ghost" UpdateResponse.ok (by decide)).1,
   (C4_not_found_no_write cfg0 now0 "Ghost" UpdateResponse.ok (by decide)).2.2.2.1⟩

/-- C5: the server handler responds 400 exactly when the `product` parameter is missing
or is the empty string, whatever the store would answer; in that case it makes no remote
call at all. -/
theorem C5_missing_product_400 (cfg : Config) (now : String) (product : Option String)
    (qr : QueryResponse) (ur : UpdateResponse) :
    ((UpdateStock.handler cfg now product qr ur).1.status = 400 ↔
      (product = none ∨ product = some "")) ∧
    ((product = none ∨ product = some "") →
      (UpdateStock.handler cfg now product qr ur).2 = []) := by
  cases product with
  | none => simp [UpdateStock.handler]
  | some name =>
    by_cases hname : name = ""
    · simp [UpdateStock.handler, hname]
    · constructor
      · simp only [UpdateStock.handler, hname, if_false]
        cases qr with
        | failed m => simp [UpdateStock.handlerTry, hname]
        | notOk t => simp [UpdateStock.handlerTry, hname]
        | ok results =>
          cases results with
          | nil => simp [UpdateStock.handlerTry, hname]
          | cons page rest => cases ur <;> simp [UpdateStock.handlerTry, hname]
      · intro h
        simp [hname] at h

/-- C5 on the empty product string: status 400 and no remote call. -/
theorem C5_missing_product_400_witness :
    (UpdateStock.handler cfg0 now0 (some "") (QueryResponse.ok [filterA])
        UpdateResponse.ok).1.status = 400 ∧
    (UpdateStock.handler cfg0 now0 (some "") (QueryResponse.ok [filterA])
        UpdateResponse.ok).2 = [] :=
  ⟨(C5_missing_product_400 cfg0 now0 (some "") (QueryResponse.ok [filterA])
      UpdateResponse.ok).1.2 (Or.inr rfl),
   (C5_missing_product_400 cfg0 now0 (some "") (QueryResponse.ok [filterA])
      UpdateResponse.ok).2 (Or.inr rfl)⟩

/-- C6 as stated fails for the client: when the store answers the query with a non-success
response whose body text is "unauthorized", the client ends in status `error` but its
message is the fixed text "Failed to find product in database", which does not contain
the store's text. -/
theorem C6_client_message_omits_store_text :
    (StockScanner.useEffect cfg0 now0 (some "Filter A") (QueryResponse.notOk "unauthorized")
        UpdateResponse.ok).1.status = StockScanner.Status.error ∧
    (StockScanner.useEffect cfg0 now0 (some "Filter A") (QueryResponse.notOk "unauthorized")
        UpdateResponse.ok).1.error = "Failed to find product in database" ∧
    ¬ containsText
        (StockScanner.useEffect cfg0 now0 (some "Filter A")
          (QueryResponse.notOk "unauthorized") UpdateResponse.ok).1.error
        "unauthorized" := by
  refine ⟨by decide, by decide, by decide⟩

/-- C6, amended: whenever the store answers the query call, or the update call of a found
record, with a non-success response whose body text is `t`, both entry points end in the
error outcome (server: status 500 with body `error message`; client: status `error`);
the server message contains `t`; the client message is the fixed text
"Failed to find product in database" (query) or "Failed to update stock" (update). -/
theorem C6_non_success_response_is_error (cfg : Config) (now name t : String)
    (page : Page) (rest : List Page) (ur : UpdateResponse) (hname : name ≠ "") :
    (∃ msg, (UpdateStock.handler cfg now (some name) (QueryResponse.notOk t) ur).1
              = ⟨500, UpdateStock.JsonBody.error msg⟩ ∧ containsText msg t) ∧
    (∃ msg, (UpdateStock.handler cfg now (some name) (QueryResponse.ok (page :: rest))
              (UpdateResponse.notOk t)).1
              = ⟨500, UpdateStock.JsonBody.error msg⟩ ∧ containsText msg t) ∧
    ((StockScanner.useEffect cfg now (some name) (QueryResponse.notOk t) ur).1.status
        = StockScanner.Status.error ∧
      (StockScanner.useEffect cfg now (some name) (QueryResponse.notOk t) ur).1.error
        = "Failed to find product in database") ∧
    ((StockScanner.useEffect cfg now (some name) (QueryResponse.ok (page :: rest))
          (UpdateResponse.notOk t)).1.status = StockScanner.Status.error ∧
      (StockScanner.useEffect cfg now (some name) (QueryResponse.ok (page :: rest))
          (UpdateResponse.notOk t)).1.error = "Failed to update stock") := by
  refine ⟨⟨"Notion query failed: " ++ t, ?_, ?_⟩, ⟨"Notion update failed: " ++ t, ?_, ?_⟩,
    ⟨?_, ?_⟩, ⟨?_, ?_⟩⟩
  · simp [UpdateStock.handler, UpdateStock.handlerTry, hname]
  · exact ⟨"Notion query failed: ".data, [], by simp [String.data_append]⟩
  · simp [UpdateStock.handler, UpdateStock.handlerTry, hname]
  · exact ⟨"Notion update failed: ".data, [], by simp [String.data_append]⟩
  · simp [StockScanner.useEffect, StockScanner.subtractStock,
      StockScanner.subtractStockTry, hname]
  · simp [StockScanner.useEffect, StockScanner.subtractStock,
      StockScanner.subtractStockTry, hname]
  · simp [StockScanner.useEffect, StockScanner.subtractStock,
      StockScanner.subtractStockTry, hname]
  · simp [StockScanner.useEffect, StockScanner.subtractStock,
      StockScanner.subtractStockTry, hname]

/-- C6 amended, on a query answered "unauthorized": the server reports status 500 with a
message containing that text. -/
theorem C6_non_success_response_is_error_witness :
    "Filter A" ≠ "" ∧
    ∃ msg, (UpdateStock.handler cfg0 now0 (some "Filter A")
              (QueryResponse.notOk "unauthorized") UpdateResponse.ok).1
            = ⟨500, UpdateStock.JsonBody.error msg⟩ ∧ containsText msg "unauthorized" :=
  ⟨by decide,
   (C6_non_success_response_is_error cfg0 now0 "Filter A" "unauthorized" filterA []
      UpdateResponse.ok (by decide)).1⟩

/-- C7: when the query returns a non-empty results list (for a non-empty product name,
whatever the update call answers), each entry point issues exactly one write call; it is
addressed to the page of the first result and the keys of its `properties` object are
exactly Quantity, Total Consumed, Consumed This Month and Last Consumed.  In every other
invocation no write call is issued. -/
theorem C7_exactly_one_write_of_four_fields (cfg : Config) (now : String)
    (product : Option String) (qr : QueryResponse) (ur : UpdateResponse) :
    (∀ name page rest, product = some name → name ≠ "" →
        qr = QueryResponse.ok (page :: rest) →
      (∃ u, writeCalls (UpdateStock.handler cfg now product qr ur).2 = [u] ∧
            u.url = "https://api.notion.com/v1/pages/" ++ page.id ∧
            propertyKeys u.body
              = ["Quantity", "Total Consumed", "Consumed This Month", "Last Consumed"]) ∧
      (∃ u, writeCalls (StockScanner.useEffect cfg now product qr ur).2 = [u] ∧
            u.url = "https://api.notion.com/v1/pages/" ++ page.id ∧
            propertyKeys u.body
              = ["Quantity", "Total Consumed", "Consumed This Month", "Last Consumed"])) ∧
    ((¬ ∃ name page rest, product = some name ∧ name ≠ "" ∧
        qr = QueryResponse.ok (page :: rest)) →
      writeCalls (UpdateStock.handler cfg now product qr ur).2 = [] ∧
      writeCalls (StockScanner.useEffect cfg now product qr ur).2 = []) := by
  constructor
  · intro name page rest hp hname hq
    subst hp hq
    rw [handler_found_calls cfg now name hname, useEffect_found_calls cfg now name hname]
    refine ⟨⟨UpdateStock.updateCall cfg now page.id (newQtyOf page)
        (F64.add (totalConsumedOf page) (F64.finite 1))
        (F64.add (monthlyConsumedOf page) (F64.finite 1)), ?_, rfl, rfl⟩,
      ⟨StockScanner.updateCall cfg now page.id (newQtyOf page)
        (F64.add (totalConsumedOf page) (F64.finite 1))
        (F64.add (monthlyConsumedOf page) (F64.finite 1)), ?_, rfl, rfl⟩⟩
    · simp [writeCalls, UpdateStock.queryCall, UpdateStock.updateCall]
    · simp [writeCalls, StockScanner.queryCall, StockScanner.updateCall]
  · intro h
    cases product with
    | none => simp [UpdateStock.handler, StockScanner.useEffect, writeCalls]
    | some name =>
      by_cases hname : name = ""
      · simp [UpdateStock.handler, StockScanner.useEffect, writeCalls, hname]
      · cases qr with
        | failed m =>
          simp [UpdateStock.handler, UpdateStock.handlerTry, StockScanner.useEffect,
            StockScanner.subtractStock, StockScanner.subtractStockTry, writeCalls, hname,
            UpdateStock.queryCall, StockScanner.queryCall]
        | notOk t =>
          simp [UpdateStock.handler, UpdateStock.handlerTry, StockScanner.useEffect,
            StockScanner.subtractStock, StockScanner.subtractStockTry, writeCalls, hname,
            UpdateStock.queryCall, StockScanner.queryCall]
        | ok results =>
          cases results with
          | nil =>
            simp [UpdateStock.handler, UpdateStock.handlerTry, StockScanner.useEffect,
              StockScanner.subtractStock, StockScanner.subtractStockTry, writeCalls, hname,
              UpdateStock.queryCall, StockScanner.queryCall]
          | cons page rest => exact absurd ⟨name, page, rest, rfl, hname, rfl⟩ h

/-- C7 on the first scenario with a failing update: the single write call of the server
handler goes to the page of the record found. -/
theorem C7_exactly_one_write_of_four_fields_witness :
    "Filter A" ≠ "" ∧
    ∃ u, writeCalls (UpdateStock.handler cfg0 now0 (some "Filter A")
            (QueryResponse.ok [filterA, filterB]) (UpdateResponse.notOk "conflict")).2 = [u] ∧
          u.url = "https://api.notion.com/v1/pages/" ++ filterA.id ∧
          propertyKeys u.body
            = ["Quantity", "Total Consumed", "Consumed This Month", "Last Consumed"] :=
  ⟨by decide,
   ((C7_exactly_one_write_of_four_fields cfg0 now0 (some "Filter A")
      (QueryResponse.ok [filterA, filterB]) (UpdateResponse.notOk "conflict")).1
        "Filter A" filterA [filterB] rfl (by decide) rfl).1⟩

/-- C8: for every product parameter and every pair of store answers, the server handler
and the client component issue the same sequence of remote calls: the same query filter,
the same update target and the same Quantity, Total Consumed and Consumed This Month
values, whatever their configurations and clocks, and with a shared configuration and
clock the same methods, URLs and bodies.  The server ends in success (status 200) exactly
when the client does (status `success` or `low-stock`), and then both report equal
product name, oldQty, newQty, totalConsumed, monthlyConsumed, price and value. -/
theorem C8_entry_points_agree (cfgA cfgB : Config) (nowA nowB : String)
    (product : Option String) (qr : QueryResponse) (ur : UpdateResponse) :
    (UpdateStock.handler cfgA nowA product qr ur).2.map RemoteCall.essence
      = (StockScanner.useEffect cfgB nowB product qr ur).2.map RemoteCall.essence ∧
    (UpdateStock.handler cfgA nowA product qr ur).2.map (fun c => (c.method, c.url, c.body))
      = (StockScanner.useEffect cfgA nowA product qr ur).2.map
          (fun c => (c.method, c.url, c.body)) ∧
    ((UpdateStock.handler cfgA nowA product qr ur).1.status = 200 ↔
      ((StockScanner.useEffect cfgB nowB product qr ur).1.status
          = StockScanner.Status.success ∨
        (StockScanner.useEffect cfgB nowB product qr ur).1.status
          = StockScanner.Status.lowStock)) ∧
    ((UpdateStock.handler cfgA nowA product qr ur).1.status = 200 →
      ∃ r p, (UpdateStock.handler cfgA nowA product qr ur).1.body
               = UpdateStock.JsonBody.result r ∧
             (StockScanner.useEffect cfgB nowB product qr ur).1.product = some p ∧
             r.product = p.name ∧ r.oldQty = p.oldQty ∧ r.newQty = p.newQty ∧
             r.totalConsumed = p.totalConsumed ∧ r.monthlyConsumed = p.monthlyConsumed ∧
             r.price = p.price ∧ r.value = p.value) := by
  cases product with
  | none => simp [UpdateStock.handler, StockScanner.useEffect, StockScanner.initialState]
  | some name =>
    by_cases hname : name = ""
    · simp [UpdateStock.handler, StockScanner.useEffect, StockScanner.initialState, hname]
    · cases qr with
      | failed m =>
        simp [UpdateStock.handler, UpdateStock.handlerTry, StockScanner.useEffect,
          StockScanner.subtractStock, StockScanner.subtractStockTry, hname,
          UpdateStock.queryCall, StockScanner.queryCall, RemoteCall.essence]
      | notOk t =>
        simp [UpdateStock.handler, UpdateStock.handlerTry, StockScanner.useEffect,
          StockScanner.subtractStock, StockScanner.subtractStockTry, hname,
          UpdateStock.queryCall, StockScanner.queryCall, RemoteCall.essence]
      | ok results =>
        cases results with
        | nil =>
          simp [UpdateStock.handler, UpdateStock.handlerTry, StockScanner.useEffect,
            StockScanner.subtractStock, StockScanner.subtractStockTry, hname,
            UpdateStock.queryCall, StockScanner.queryCall, RemoteCall.essence]
        | cons page rest =>
          rw [handler_found_calls cfgA nowA name hname,
            useEffect_found_calls cfgB nowB name hname,
            useEffect_found_calls cfgA nowA name hname]
          refine ⟨by simp [UpdateStock.queryCall, StockScanner.queryCall,
              UpdateStock.updateCall, StockScanner.updateCall, RemoteCall.essence,
              lookupNumber],
            by simp [UpdateStock.queryCall, StockScanner.queryCall,
              UpdateStock.updateCall, StockScanner.updateCall], ?_⟩
          cases ur with
          | failed m =>
            simp [UpdateStock.handler, UpdateStock.handlerTry, StockScanner.useEffect,
              StockScanner.subtractStock, StockScanner.subtractStockTry, hname]
          | notOk t =>
            simp [UpdateStock.handler, UpdateStock.handlerTry, StockScanner.useEffect,
              StockScanner.subtractStock, StockScanner.subtractStockTry, hname]
          | ok =>
            rw [handler_found cfgA nowA name hname, useEffect_found cfgB nowB name hname]
            refine ⟨?_, fun _ => ⟨_, _, rfl, rfl, rfl, rfl, rfl, rfl, rfl, rfl, rfl⟩⟩
            by_cases h : F64.le (newQtyOf page) (F64.finite 2) = true <;> simp [h]

/-- C8 on the first scenario, with two different configurations and clocks: the server
answers 200, hence the client ends in `success` or `low-stock`. -/
theorem C8_entry_points_agree_witness :
    (UpdateStock.handler cfg0 now0 (some "Filter A") (QueryResponse.ok [filterA])
        UpdateResponse.ok).1.status = 200 ∧
    ((StockScanner.useEffect ⟨"other", "db2"⟩ "later" (some "Filter A")
          (QueryResponse.ok [filterA]) UpdateResponse.ok).1.status
        = StockScanner.Status.success ∨
      (StockScanner.useEffect ⟨"other", "db2"⟩ "later" (some "Filter A")
          (QueryResponse.ok [filterA]) UpdateResponse.ok).1.status
        = StockScanner.Status.lowStock) :=
  ⟨by decide,
   (C8_entry_points_agree cfg0 ⟨"other", "db2"⟩ now0 "later" (some "Filter A")
      (QueryResponse.ok [filterA]) UpdateResponse.ok).2.2.1.1 (by decide)⟩

/-- C10 as stated fails: when the query `fetch` is rejected with an error whose message
is empty, the page load ends in status `error` with an empty message. -/
theorem C10_rejected_fetch_empty_message :
    (StockScanner.useEffect cfg0 now0 (some "Filter A") (QueryResponse.failed "")
        UpdateResponse.ok).1.status = StockScanner.Status.error ∧
    (StockScanner.useEffect cfg0 now0 (some "Filter A") (QueryResponse.failed "")
        UpdateResponse.ok).1.error = "" := by
  refine ⟨by decide, by decide⟩

/-- C10, amended: the component starts in `loading` and renders the loading view.  Once
the mount effect and its transaction run have completed, the status is `success`,
`low-stock` or `error`, never `loading`, and `isProcessing` is false.  It is `error` with
no remote call when the URL carries no product; it is `success` or `low-stock` exactly
when the product is non-empty, the query succeeded with a non-empty results list and the
update succeeded, and `error` in every other case.  In status `error` the view rendered is
the error view with the message; the message is that of the rejection when a remote call
is rejected, and it is non-empty in every other error case.  In status `success` (resp.
`low-stock`) the product is set and the view rendered is the success (resp. low-stock)
view of that product. -/
theorem C10_presentation_state_machine (cfg : Config) (now : String)
    (productName : Option String) (qr : QueryResponse) (ur : UpdateResponse) :
    StockScanner.initialState.status = StockScanner.Status.loading ∧
    StockScanner.render StockScanner.initialState = [StockScanner.View.loading] ∧
    (StockScanner.useEffect cfg now productName qr ur).1.status
      ≠ StockScanner.Status.loading ∧
    ((StockScanner.useEffect cfg now productName qr ur).1.status
        = StockScanner.Status.success ∨
      (StockScanner.useEffect cfg now productName qr ur).1.status
        = StockScanner.Status.lowStock ∨
      (StockScanner.useEffect cfg now productName qr ur).1.status
        = StockScanner.Status.error) ∧
    (StockScanner.useEffect cfg now productName qr ur).1.isProcessing = false ∧
    ((productName = none ∨ productName = some "") →
      (StockScanner.useEffect cfg now productName qr ur).1.status
        = StockScanner.Status.error ∧
      (StockScanner.useEffect cfg now productName qr ur).1.error
        = "No product specified in URL" ∧
      (StockScanner.useEffect cfg now productName qr ur).2 = []) ∧
    (((StockScanner.useEffect cfg now productName qr ur).1.status
          = StockScanner.Status.success ∨
        (StockScanner.useEffect cfg now productName qr ur).1.status
          = StockScanner.Status.lowStock) ↔
      ∃ name page rest, productName = some name ∧ name ≠ "" ∧
        qr = QueryResponse.ok (page :: rest) ∧ ur = UpdateResponse.ok) ∧
    ((StockScanner.useEffect cfg now productName qr ur).1.status
        = StockScanner.Status.error ↔
      ¬ ∃ name page rest, productName = some name ∧ name ≠ "" ∧
        qr = QueryResponse.ok (page :: rest) ∧ ur = UpdateResponse.ok) ∧
    ((StockScanner.useEffect cfg now productName qr ur).1.status
        = StockScanner.Status.error →
      (StockScanner.useEffect cfg now productName qr ur).1.error ≠ "" ∨
      (∃ name, productName = some name ∧ name ≠ "" ∧ qr = QueryResponse.failed "") ∨
      (∃ name page rest, productName = some name ∧ name ≠ "" ∧
        qr = QueryResponse.ok (page :: rest) ∧ ur = UpdateResponse.failed "")) ∧
    (∀ name m, productName = some name → name ≠ "" → qr = QueryResponse.failed m →
      (StockScanner.useEffect cfg now productName qr ur).1.error = m) ∧
    (∀ name page rest m, productName = some name → name ≠ "" →
      qr = QueryResponse.ok (page :: rest) → ur = UpdateResponse.failed m →
      (StockScanner.useEffect cfg now productName qr ur).1.error = m) ∧
    ((StockScanner.useEffect cfg now productName qr ur).1.status
        = StockScanner.Status.error →
      StockScanner.render (StockScanner.useEffect cfg now productName qr ur).1
        = [StockScanner.View.error
            (StockScanner.useEffect cfg now productName qr ur).1.error]) ∧
    ((StockScanner.useEffect cfg now productName qr ur).1.status
        = StockScanner.Status.success →
      ∃ p, (StockScanner.useEffect cfg now productName qr ur).1.product = some p ∧
        StockScanner.render (StockScanner.useEffect cfg now productName qr ur).1
          = [StockScanner.View.success p]) ∧
    ((StockScanner.useEffect cfg now productName qr ur).1.status
        = StockScanner.Status.lowStock →
      ∃ p, (StockScanner.useEffect cfg now productName qr ur).1.product = some p ∧
        StockScanner.render (StockScanner.useEffect cfg now productName qr ur).1
          = [StockScanner.View.lowStock p]) := by
  refine ⟨rfl, by decide, ?_⟩
  cases productName with
  | none =>
    simp [StockScanner.useEffect, StockScanner.initialState, StockScanner.render]
  | some name =>
    by_cases hname : name = ""
    · simp [StockScanner.useEffect, StockScanner.initialState, StockScanner.render, hname]
      constructor
      · intro n m h1 h2
        exact absurd h1.symm h2
      · intro n page rest m h1 h2
        exact absurd h1.symm h2
    · cases qr with
      | failed m =>
        simp [StockScanner.useEffect, StockScanner.subtractStock,
          StockScanner.subtractStockTry, StockScanner.initialState, StockScanner.render,
          hname]
        tauto
      | notOk t =>
        simp [StockScanner.useEffect, StockScanner.subtractStock,
          StockScanner.subtractStockTry, StockScanner.initialState, StockScanner.render,
          hname]
      | ok results =>
        cases results with
        | nil =>
          simp only [StockScanner.useEffect, StockScanner.subtractStock,
            StockScanner.subtractStockTry, StockScanner.initialState,
            StockScanner.render, hname]
          have hne : "Product \"" ++ name ++ "\" not found in database" ≠ "" := by
            intro h
            have := congrArg String.length h
            simp [String.length_append] at this
            exact absurd this.1.1 (by decide)
          simp [hne, hname]
        | cons page rest =>
          cases ur with
          | failed m =>
            simp [StockScanner.useEffect, StockScanner.subtractStock,
              StockScanner.subtractStockTry, StockScanner.initialState,
              StockScanner.render, hname]
            tauto
          | notOk t =>
            simp [StockScanner.useEffect, StockScanner.subtractStock,
              StockScanner.subtractStockTry, StockScanner.initialState,
              StockScanner.render, hname]
          | ok =>
            rw [useEffect_found cfg now name hname]
            by_cases h : F64.le (newQtyOf page) (F64.finite 2) = true <;>
              simp [h, hname, StockScanner.render]

/-- C10 amended, on a page load whose query call is rejected with the message
"Failed to fetch": the component ends in `error` and renders the error view with that
message. -/
theorem C10_presentation_state_machine_witness :
    (StockScanner.useEffect cfg0 now0 (some "Filter A") (QueryResponse.failed "Failed to fetch")
        UpdateResponse.ok).1.status = StockScanner.Status.error ∧
    StockScanner.render (StockScanner.useEffect cfg0 now0 (some "Filter A")
        (QueryResponse.failed "Failed to fetch") UpdateResponse.ok).1
      = [StockScanner.View.error
          (StockScanner.useEffect cfg0 now0 (some "Filter A")
            (QueryResponse.failed "Failed to fetch") UpdateResponse.ok).1.error] ∧
    (StockScanner.useEffect cfg0 now0 (some "Filter A") (QueryResponse.failed "Failed to fetch")
        UpdateResponse.ok).1.error = "Failed to fetch" :=
  ⟨by decide,
   (C10_presentation_state_machine cfg0 now0 (some "Filter A")
      (QueryResponse.failed "Failed to fetch") UpdateResponse.ok).2.2.2.2.2.2.2.2.2.2.2.1
      (by decide),
   (C10_presentation_state_machine cfg0 now0 (some "Filter A")
      (QueryResponse.failed "Failed to fetch") UpdateResponse.ok).2.2.2.2.2.2.2.2.2.1
      "Filter A" "Failed to fetch" rfl (by decide) rfl⟩

end Nevera
